import Mathlib

/-!
Verification of the Fleet `MessageSigningService` (message signing key service)
and of the `trainedModelsRoutes` HTTP route registrations, as a shallow
embedding.  The saved-object store is modelled as an explicit state (a list of
saved objects in most-recent-first order, matching the service reading the
single newest object of its type), the cryptographic library and the store are
dependencies supplied through an environment, and every method of the service
becomes an explicit state transformer that also records the list of dependency
effects it performed.  Dependency failures are injected through the
environment so that error propagation can be stated.
-/

namespace MsgSign

/-- JavaScript truthiness of an optional string value: `undefined` and the
empty string are falsy, every other string is truthy. -/
def truthy : Option String → Bool
  | none => false
  | some s => s != ""

/-- JavaScript `a || b` on optional strings: `a` when `a` is truthy, else `b`.
Used for `passphraseEncrypted || passphrasePlain`. -/
def jsOr (a b : Option String) : Option String :=
  if truthy a then a else b

/-- JavaScript `a || b` where the fallback is a plain string.  Used for
`providedPassphrase || this.generatePassphrase()`. -/
def jsOrStr (a : Option String) (b : String) : String :=
  match a with
  | some s => if s != "" then s else b
  | none => b

/-- The attributes of a message-signing-keys saved object
(interface `MessageSigningKeys`).  The service persists
`Partial<MessageSigningKeys>`, so every field is optional. -/
structure MessageSigningKeys where
  private_key : Option String
  public_key : Option String
  passphrase : Option String
  passphrase_plain : Option String
deriving Repr, DecidableEq

/-- A saved object of the message-signing-keys type: an id and its attributes
(the service guards against `attributes` being undefined). -/
structure SavedObject where
  id : Nat
  attributes : Option MessageSigningKeys
deriving Repr, DecidableEq

/-- The saved-object store restricted to the message-signing-keys type.
`objs` is sorted by creation time descending (newest first), so the object
read by `getCurrentKeyPairObj` (a point-in-time find with `perPage: 1`,
`sortField: created_at`, `sortOrder: desc`) is the head of the list.
`nextId` generates fresh saved-object ids. -/
structure Store where
  objs : List SavedObject
  nextId : Nat
deriving Repr, DecidableEq

/-- `soClient.create`: a newly created object is the newest, hence prepended. -/
def Store.create (s : Store) (attrs : MessageSigningKeys) : SavedObject × Store :=
  let so : SavedObject := ⟨s.nextId, some attrs⟩
  (so, ⟨so :: s.objs, s.nextId + 1⟩)

/-- `soClient.update`: replaces the attributes of the object with the given id,
in place. -/
def Store.update (s : Store) (id : Nat) (attrs : MessageSigningKeys) : Store :=
  ⟨s.objs.map (fun o => if o.id = id then ⟨o.id, some attrs⟩ else o), s.nextId⟩

/-- `soClient.delete`: removes the object with the given id. -/
def Store.delete (s : Store) (id : Nat) : Store :=
  ⟨s.objs.filter (fun o => o.id ≠ id), s.nextId⟩

/-- The options record passed to `generateKeyPairSync`, mirroring the literal
object in `generateKeyPair`: key type, named curve, private key encoding
(type, format, cipher, passphrase) and public key encoding (type, format). -/
structure KeyGenOptions where
  keyType : String
  namedCurve : String
  privType : String
  privFormat : String
  privCipher : String
  passphrase : String
  pubType : String
  pubFormat : String
deriving Repr, DecidableEq

/-- The options literal of the `generateKeyPairSync` call in
`generateKeyPair`: an `ec` pair on curve `prime256v1`, private key as
`pkcs8`/`der` encrypted with `aes-256-cbc` under the passphrase, public key
as `spki`/`der`. -/
def ecKeyGenOptions (passphrase : String) : KeyGenOptions :=
  ⟨"ec", "prime256v1", "pkcs8", "der", "aes-256-cbc", passphrase, "spki", "der"⟩

/-- One observable dependency call performed by the service (recorded when the
call succeeds). `data` of a signature is the byte list that was signed. -/
inductive Effect where
  | soFind
  | soCreate (attrs : MessageSigningKeys)
  | soUpdate (id : Nat) (attrs : MessageSigningKeys)
  | soDelete (id : Nat)
  | cryptoGen (opts : KeyGenOptions)
  | cryptoSign (algo : String) (privateKeyB64 : String) (passphrase : String)
      (data : List Nat) (outputFormat : String)
deriving Repr, DecidableEq

/-- An error surfaced by a service method: either an error thrown by a
dependency (the store or the cryptographic library), or an `Error` the service
itself throws with a message. -/
inductive SvcErr (ε : Type) where
  | dep (e : ε)
  | msg (s : String)
deriving Repr, DecidableEq

/-- The environment of the service: the encryption-availability flag
(`appContextService.getEncryptedSavedObjectsSetup()?.canEncrypt ?? false`),
the cryptographic primitives, and fault-injection slots for each dependency
call (`some e` makes that dependency throw `e`).

`genKeyPair` maps the `generateKeyPairSync` options to the base64 of the DER
private and public keys; `randPassphrase` is the value of
`randomBytes(32).toString(hex)`; `signFn algo key pass data fmt` is the base64
`crypto` signature of `data` under the (base64 serialized) private key and
passphrase — the base64 decoding of the key happens inside this opaque
cryptographic boundary. -/
structure Env (ε : Type) where
  canEncrypt : Bool
  genKeyPair : KeyGenOptions → String × String
  randPassphrase : String
  signFn : String → String → String → List Nat → String → String
  genErr : Option ε
  signErr : Option ε
  soFindErr : Option ε
  soCreateErr : Option ε
  soUpdateErr : Option ε
  soDeleteErr : Option ε

/-- A service computation: state transformer on the store that returns a
result (or an error) together with the list of performed dependency calls. -/
abbrev M (ε α : Type) : Type := Store → Except (SvcErr ε) α × Store × List Effect

def mPure {ε α : Type} (a : α) : M ε α := fun s => (Except.ok a, s, [])

def mBind {ε α β : Type} (x : M ε α) (f : α → M ε β) : M ε β := fun s =>
  match x s with
  | (Except.ok a, s1, t1) =>
    match f a s1 with
    | (r, s2, t2) => (r, s2, t1 ++ t2)
  | (Except.error e, s1, t1) => (Except.error e, s1, t1)

def mThrow {ε α : Type} (e : SvcErr ε) : M ε α := fun s => (Except.error e, s, [])

/-- The point-in-time find of `getCurrentKeyPairObj`: reads the newest saved
object of the message-signing-keys type, if any. -/
def soFindOp {ε : Type} (env : Env ε) : M ε (Option SavedObject) := fun s =>
  match env.soFindErr with
  | some e => (Except.error (SvcErr.dep e), s, [])
  | none => (Except.ok s.objs.head?, s, [Effect.soFind])

/-- `soClient.create` as a fallible dependency call. -/
def soCreateOp {ε : Type} (env : Env ε) (attrs : MessageSigningKeys) :
    M ε SavedObject := fun s =>
  match env.soCreateErr with
  | some e => (Except.error (SvcErr.dep e), s, [])
  | none =>
    match s.create attrs with
    | (so, s1) => (Except.ok so, s1, [Effect.soCreate attrs])

/-- `soClient.update` as a fallible dependency call. -/
def soUpdateOp {ε : Type} (env : Env ε) (id : Nat) (attrs : MessageSigningKeys) :
    M ε Unit := fun s =>
  match env.soUpdateErr with
  | some e => (Except.error (SvcErr.dep e), s, [])
  | none => (Except.ok (), s.update id attrs, [Effect.soUpdate id attrs])

/-- `soClient.delete` as a fallible dependency call. -/
def soDeleteOp {ε : Type} (env : Env ε) (id : Nat) : M ε Unit := fun s =>
  match env.soDeleteErr with
  | some e => (Except.error (SvcErr.dep e), s, [])
  | none => (Except.ok (), s.delete id, [Effect.soDelete id])

/-- `generateKeyPairSync` as a fallible dependency call. -/
def cryptoGenOp {ε : Type} (env : Env ε) (opts : KeyGenOptions) :
    M ε (String × String) := fun s =>
  match env.genErr with
  | some e => (Except.error (SvcErr.dep e), s, [])
  | none => (Except.ok (env.genKeyPair opts), s, [Effect.cryptoGen opts])

/-- `signer.sign` as a fallible dependency call. -/
def cryptoSignOp {ε : Type} (env : Env ε) (algo privateKeyB64 passphrase : String)
    (data : List Nat) (outputFormat : String) : M ε String := fun s =>
  match env.signErr with
  | some e => (Except.error (SvcErr.dep e), s, [])
  | none =>
    (Except.ok (env.signFn algo privateKeyB64 passphrase data outputFormat), s,
      [Effect.cryptoSign algo privateKeyB64 passphrase data outputFormat])

/-- The triple returned by `generateKeyPair` and `checkForExistingKeyPair`. -/
structure KeyTriple where
  privateKey : String
  publicKey : String
  passphrase : String
deriving Repr, DecidableEq

/-- `MessageSigningService.getCurrentKeyPairObj` (source lines 782-800): a
point-in-time find for the newest message-signing-keys object. -/
def getCurrentKeyPairObj {ε : Type} (env : Env ε) : M ε (Option SavedObject) :=
  soFindOp env

/-- `MessageSigningService.checkForExistingKeyPair` (source lines 802-845).
Returns the stored triple when the current object carries a truthy
private key, public key and passphrase (the passphrase taken from the
`passphrase` attribute, falling back on `passphrase_plain`); when the
passphrase was stored in plain text and encryption has become available, the
saved object is first rewritten with the passphrase in the encrypted
`passphrase` attribute and an empty `passphrase_plain`. -/
def checkForExistingKeyPair {ε : Type} (env : Env ε) : M ε (Option KeyTriple) :=
  mBind (getCurrentKeyPairObj env) fun currentKeyPair =>
    match currentKeyPair with
    | none => mPure none
    | some cur =>
      match cur.attributes with
      | none => mPure none
      | some attrs =>
        let privateKey := attrs.private_key
        let publicKey := attrs.public_key
        let passphraseEncrypted := attrs.passphrase
        let passphrasePlain := attrs.passphrase_plain
        let passphrase := jsOr passphraseEncrypted passphrasePlain
        if !truthy privateKey || !truthy publicKey || !truthy passphrase then
          mPure none
        else
          mBind
            (if truthy passphrasePlain && env.canEncrypt then
              soUpdateOp env cur.id ⟨privateKey, publicKey, passphrase, some ""⟩
            else
              mPure ())
            fun _ =>
              mPure (some ⟨privateKey.getD "", publicKey.getD "", passphrase.getD ""⟩)

/-- `MessageSigningService.generateKeyPair` (source lines 650-698): returns
the existing key pair when one is stored; otherwise generates an `ec` pair on
`prime256v1`, persists it (passphrase in the `passphrase` attribute when
encryption is available, in `passphrase_plain` otherwise) and returns it. -/
def generateKeyPair {ε : Type} (env : Env ε) (providedPassphrase : Option String) :
    M ε KeyTriple :=
  mBind (checkForExistingKeyPair env) fun existingKeyPair =>
    match existingKeyPair with
    | some kp => mPure kp
    | none =>
      let passphrase := jsOrStr providedPassphrase env.randPassphrase
      mBind (cryptoGenOp env (ecKeyGenOptions passphrase)) fun keyPair =>
        let privateKey := keyPair.1
        let publicKey := keyPair.2
        let keypairSoObject : MessageSigningKeys :=
          if env.canEncrypt then
            ⟨some privateKey, some publicKey, some passphrase, none⟩
          else
            ⟨some privateKey, some publicKey, none, some passphrase⟩
        mBind (soCreateOp env keypairSoObject) fun _ =>
          mPure ⟨privateKey, publicKey, passphrase⟩

/-- A message passed to `sign`: either a `Buffer` (a byte list) or a
non-buffer record, represented by its JSON serialization, which `sign`
encodes as UTF-8 (`Buffer.from(JSON.stringify(message), utf8)`). -/
inductive Message where
  | buffer (data : List Nat)
  | record (json : String)
deriving Repr, DecidableEq

/-- The UTF-8 bytes of a string. -/
def utf8Bytes (s : String) : List Nat := s.toUTF8.toList.map (fun b => b.toNat)

/-- `MessageSigningService.sign` (source lines 700-729): obtains the current
key pair through `generateKeyPair`, serializes the message, and returns the
message bytes with their base64 SHA256 signature under the private key and
passphrase. -/
def sign {ε : Type} (env : Env ε) (message : Message) : M ε (List Nat × String) :=
  mBind (generateKeyPair env none) fun kp =>
    let serializedPrivateKey := kp.privateKey
    let passphrase := kp.passphrase
    let msgBuffer :=
      match message with
      | Message.buffer b => b
      | Message.record json => utf8Bytes json
    if serializedPrivateKey = "" then
      mThrow (SvcErr.msg "unable to find private key")
    else if passphrase = "" then
      mThrow (SvcErr.msg "unable to find passphrase")
    else
      mBind (cryptoSignOp env "SHA256" serializedPrivateKey passphrase msgBuffer "base64")
        fun signature => mPure (msgBuffer, signature)

/-- `MessageSigningService.getPublicKey` (source lines 731-739). -/
def getPublicKey {ε : Type} (env : Env ε) : M ε String :=
  mBind (generateKeyPair env none) fun kp =>
    if kp.publicKey = "" then
      mThrow (SvcErr.msg "unable to find public key")
    else
      mPure kp.publicKey

/-- `MessageSigningService.removeKeyPair` (source lines 751-758): deletes the
current saved object when one exists and reports whether it did. -/
def removeKeyPair {ε : Type} (env : Env ε) : M ε Bool :=
  mBind (getCurrentKeyPairObj env) fun currentKeyPair =>
    match currentKeyPair with
    | some cur => mBind (soDeleteOp env cur.id) fun _ => mPure true
    | none => mPure false

/-- `MessageSigningService.rotateKeyPair` (source lines 741-749). -/
def rotateKeyPair {ε : Type} (env : Env ε) : M ε Bool :=
  mBind (removeKeyPair env) fun isRemoved =>
    if isRemoved then
      mBind (generateKeyPair env none) fun _ => mPure true
    else
      mPure false

/-- Attributes that `checkForExistingKeyPair` accepts as an existing key
pair: truthy private key, public key, and passphrase in either attribute. -/
def validAttrs (a : MessageSigningKeys) : Bool :=
  truthy a.private_key && truthy a.public_key &&
    truthy (jsOr a.passphrase a.passphrase_plain)

/-- The triple that `checkForExistingKeyPair` reads off stored attributes. -/
def storedTriple (a : MessageSigningKeys) : KeyTriple :=
  ⟨a.private_key.getD "", a.public_key.getD "",
    (jsOr a.passphrase a.passphrase_plain).getD ""⟩

/-- The rewritten attributes of the passphrase-encryption migration. -/
def migrated (a : MessageSigningKeys) : MessageSigningKeys :=
  ⟨a.private_key, a.public_key, jsOr a.passphrase a.passphrase_plain, some ""⟩

/-- Whether the store currently holds a key pair that
`checkForExistingKeyPair` would accept. -/
def hasValidKeyPair (s : Store) : Bool :=
  match s.objs.head? with
  | none => false
  | some so =>
    match so.attributes with
    | none => false
    | some a => validAttrs a

/-- No dependency call of the environment fails. -/
def Env.noFail {ε : Type} (env : Env ε) : Prop :=
  env.genErr = none ∧ env.signErr = none ∧ env.soFindErr = none ∧
    env.soCreateErr = none ∧ env.soUpdateErr = none ∧ env.soDeleteErr = none

/-- The cryptographic primitives behave as the `crypto` module does:
`randomBytes(32).toString(hex)` is never empty and generated key pairs have
non-empty base64 serializations. -/
def Env.cryptoWf {ε : Type} (env : Env ε) : Prop :=
  env.randPassphrase ≠ "" ∧
    ∀ opts, (env.genKeyPair opts).1 ≠ "" ∧ (env.genKeyPair opts).2 ≠ ""

/-- A well-behaved environment: no dependency failure and honest crypto. -/
def Env.wf {ε : Type} (env : Env ε) : Prop :=
  env.noFail ∧ env.cryptoWf

/-- The attributes a fresh generation persists, as a function of the
environment and the passphrase. -/
def freshAttrs {ε : Type} (env : Env ε) (pass : String) : MessageSigningKeys :=
  if env.canEncrypt then
    ⟨some (env.genKeyPair (ecKeyGenOptions pass)).1,
      some (env.genKeyPair (ecKeyGenOptions pass)).2, some pass, none⟩
  else
    ⟨some (env.genKeyPair (ecKeyGenOptions pass)).1,
      some (env.genKeyPair (ecKeyGenOptions pass)).2, none, some pass⟩

/-- The triple a fresh generation returns. -/
def freshTriple {ε : Type} (env : Env ε) (pass : String) : KeyTriple :=
  ⟨(env.genKeyPair (ecKeyGenOptions pass)).1,
    (env.genKeyPair (ecKeyGenOptions pass)).2, pass⟩

/-- The bytes `sign` signs: the buffer itself, or the UTF-8 bytes of the JSON
serialization. -/
def msgBytes : Message → List Nat
  | Message.buffer b => b
  | Message.record json => utf8Bytes json

/-- The store invariant the service maintains: either no message-signing-keys
object at all, or exactly one, and then one that `checkForExistingKeyPair`
accepts. -/
def Inv (s : Store) : Prop :=
  s.objs = [] ∨
    ∃ so a, s.objs = [so] ∧ so.attributes = some a ∧ validAttrs a = true

/-- The stores reachable by the service from an empty store through its
public methods, under well-behaved environments (the environment may differ
from step to step, as encryption availability can change between calls). -/
inductive Reachable : Store → Prop where
  | empty (n : Nat) : Reachable ⟨[], n⟩
  | genStep {ε : Type} (env : Env ε) (p : Option String) {s : Store}
      (hwf : env.wf) : Reachable s → Reachable (generateKeyPair env p s).2.1
  | signStep {ε : Type} (env : Env ε) (m : Message) {s : Store}
      (hwf : env.wf) : Reachable s → Reachable (sign env m s).2.1
  | pubStep {ε : Type} (env : Env ε) {s : Store}
      (hwf : env.wf) : Reachable s → Reachable (getPublicKey env s).2.1
  | rotStep {ε : Type} (env : Env ε) {s : Store}
      (hwf : env.wf) : Reachable s → Reachable (rotateKeyPair env s).2.1

end MsgSign

/-!
### Concrete environments and stores

Closed instances used to evaluate the development on concrete inputs.
-/

namespace MsgSign

/-- A non-failing environment with encryption available.  Fields: canEncrypt,
genKeyPair, randPassphrase, signFn, then the six fault slots. -/
def envOkEnc : Env Unit :=
  ⟨true, fun _ => ("PRIV", "PUB"), "RANDPASS", fun _ _ _ _ _ => "SIG",
    none, none, none, none, none, none⟩

/-- A non-failing environment with encryption unavailable. -/
def envOkPlain : Env Unit :=
  ⟨false, fun _ => ("PRIV", "PUB"), "RANDPASS", fun _ _ _ _ _ => "SIG",
    none, none, none, none, none, none⟩

/-- An environment whose find dependency always throws. -/
def envFindFail : Env Unit :=
  ⟨true, fun _ => ("PRIV", "PUB"), "RANDPASS", fun _ _ _ _ _ => "SIG",
    none, none, some (), none, none, none⟩

/-- An environment whose signing primitive (`signer.sign`) always throws. -/
def envSignFail : Env Unit :=
  ⟨true, fun _ => ("PRIV", "PUB"), "RANDPASS", fun _ _ _ _ _ => "SIG",
    none, some (), none, none, none, none⟩

/-- A stored key pair with an encrypted passphrase. -/
def attrsStored : MessageSigningKeys := ⟨some "PK", some "PUB", some "PASS", none⟩

/-- A stored key pair whose passphrase is only in `passphrase_plain`. -/
def attrsPlain : MessageSigningKeys :=
  ⟨some "PK", some "PUB", none, some "PLAINPASS"⟩

def soStored : SavedObject := ⟨0, some attrsStored⟩

def storeOne : Store := ⟨[soStored], 1⟩

def storePlain : Store := ⟨[⟨0, some attrsPlain⟩], 1⟩

def storeEmpty : Store := ⟨[], 0⟩

end MsgSign

/-!
## The `trainedModelsRoutes` route handlers

Each registered handler becomes a function of the validated request parts and
of a client environment whose methods may throw; it returns the HTTP response
together with the list of client calls it performed (each call recorded when
it is made, whether or not it throws).  Logging (`mlLog.debug`) is not a
client call and is not recorded.
-/

namespace TrainedModels

/-- JavaScript truthiness of an optional string (used for
`modelId ? { model_id: modelId } : {}` and `request.query.timeout ? ... `):
an absent or empty string contributes nothing. -/
def optTruthy : Option String → Option String
  | some s => if s != "" then some s else none
  | none => none

/-- A map of ingest pipelines keyed by pipeline id; the pipeline body is kept
as an opaque string. -/
abbrev PipeMap := List (String × String)

/-- One entry of `getTrainedModels`: `model_id`, the optional
`metadata.model_aliases` (collapsed to `[]` when absent, matching
`metadata?.model_aliases ?? []`), and the `pipelines` field the handler may
attach. -/
structure TrainedModelConfig where
  model_id : String
  model_aliases : List String
  pipelines : Option PipeMap
deriving Repr, DecidableEq

/-- One entry of `getTrainedModelsStats().trained_model_stats`: the model id
and, when a deployment exists, its `deployment_stats.deployment_id`. -/
structure ModelStats where
  model_id : String
  deployment_stats : Option String
deriving Repr, DecidableEq

/-- The stats response body. -/
structure StatsResponse where
  trained_model_stats : List ModelStats
deriving Repr, DecidableEq

/-- Modelled from the spec: `wrapError` (from `../client/error_wrapper`) is
not part of the sample; the spec only says the handlers answer
`response.customError(wrapError(e))` with the thrown error, so it is kept as
a wrapper that carries the error unchanged. -/
structure WrappedError (ε : Type) where
  err : ε
deriving Repr, DecidableEq

def wrapError {ε : Type} (e : ε) : WrappedError ε := ⟨e⟩

/-- An HTTP response produced by a handler: `response.ok({ body })` or
`response.customError(wrapError(e))`. -/
inductive RouteResponse (α : Type) (ε : Type) where
  | ok (body : α)
  | customError (e : WrappedError ε)
deriving Repr, DecidableEq

/-- A call to the search-engine clients (`mlClient`, `client`,
`modelsProvider(client)`), with the arguments the handler forwarded. -/
inductive Call where
  | getTrainedModels (size : Nat) (query : String) (model_id : Option String)
  | getTrainedModelsStats (model_id : Option String) (size : Option Nat)
  | putTrainedModel (model_id : String) (body : String) (defer_dd : Bool)
  | deleteTrainedModel (model_id : String)
  | startDeployment (model_id : String) (query : Option String)
  | updateDeployment (model_id : String) (body : String)
  | stopDeployment (model_id : String) (force : Bool)
  | ingestSimulate (pipeline : String) (docs : String)
  | inferTrainedModel (model_id : String) (docs : String)
      (inference_config : Option String) (timeout : Option String)
  | getModelsPipelines (ids : List String)
deriving Repr, DecidableEq

/-- The client environment: each method returns a result or throws.  Opaque
payloads (request bodies, query strings, response bodies) are strings. -/
structure MlClient (ε : Type) where
  getTrainedModels :
    Nat → String → Option String → Except ε (List TrainedModelConfig)
  getTrainedModelsStats : Option String → Option Nat → Except ε StatsResponse
  putTrainedModel : String → String → Bool → Except ε String
  deleteTrainedModel : String → Except ε String
  startTrainedModelDeployment : String → Option String → Except ε String
  updateTrainedModelDeployment : String → String → Except ε String
  stopTrainedModelDeployment : String → Bool → Except ε String
  inferTrainedModel :
    String → String → Option String → Option String → Except ε String
  ingestSimulate : String → String → Except ε String
  getModelsPipelines : List String → Except ε (List (String × PipeMap))

/-- JavaScript object spread `{ ...a, ...b }` on records keyed by strings:
keys of `a` first (values overridden by `b` where present), then the new
keys of `b` in order. -/
def jsMerge (a b : PipeMap) : PipeMap :=
  a.map (fun kv => (kv.1, ((b.lookup kv.1).getD kv.2))) ++
    b.filter (fun kv => (a.lookup kv.1).isNone)

/-- The `reduce` of `stats.trained_model_stats` building
`modelDeploymentsMap`: skips entries without `deployment_stats`, pushes the
deployment id onto the model's list, inserting new keys in encounter order. -/
def buildDeploymentsMap (stats : List ModelStats) :
    List (String × List String) :=
  stats.foldl
    (fun acc curr =>
      match curr.deployment_stats with
      | none => acc
      | some deploymentId =>
        match acc.lookup curr.model_id with
        | some ids =>
          acc.map (fun kv =>
            if kv.1 = curr.model_id then (kv.1, ids ++ [deploymentId]) else kv)
        | none => acc ++ [(curr.model_id, [deploymentId])])
    []

/-- `Array.from(new Set([...]))`: deduplication keeping first occurrences. -/
def dedupFirst (l : List String) : List String :=
  l.foldl (fun acc x => if x ∈ acc then acc else acc ++ [x]) []

/-- The id list handed to `getModelsPipelines`: every model id with its
aliases, then every deployment id, deduplicated. -/
def modelIdsAndAliases (result : List TrainedModelConfig)
    (deployments : List (String × List String)) : List String :=
  dedupFirst
    ((result.map (fun m => m.model_id :: m.model_aliases)).flatten ++
      (deployments.map (fun kv => kv.2)).flatten)

/-- The per-model enrichment `model.pipelines = { ...base, ...aliases',
...deployments' }` of the `GET trained_models/{modelId}` handler. -/
def enrichModel (pipelinesResponse : List (String × PipeMap))
    (deployments : List (String × List String)) (model : TrainedModelConfig) :
    TrainedModelConfig :=
  ⟨model.model_id, model.model_aliases,
    some (jsMerge
      (jsMerge ((pipelinesResponse.lookup model.model_id).getD [])
        (model.model_aliases.foldl
          (fun acc als =>
            jsMerge acc ((pipelinesResponse.lookup als).getD []))
          []))
      (((deployments.lookup model.model_id).getD []).foldl
        (fun acc deploymentId =>
          jsMerge acc ((pipelinesResponse.lookup deploymentId).getD []))
        []))⟩

/-- `GET /api/ml/trained_models/{modelId?}` (source lines 36-126): fetches
the model configurations; when `with_pipelines` is set it additionally
fetches stats and pipelines to attach a `pipelines` map to every model, and
any error of that enrichment block is only logged (`mlLog.debug`), the
handler still answering 200 with the unenriched list.  Only an error of the
primary `getTrainedModels` call produces `customError`. -/
def getModelsRoute {ε : Type} (client : MlClient ε) (modelId : Option String)
    (withPipelines : Bool) (query : String) :
    RouteResponse (List TrainedModelConfig) ε × List Call :=
  match client.getTrainedModels 1000 query (optTruthy modelId) with
  | Except.error e =>
    (RouteResponse.customError (wrapError e),
      [Call.getTrainedModels 1000 query (optTruthy modelId)])
  | Except.ok result =>
    if withPipelines then
      match client.getTrainedModelsStats (optTruthy modelId) (some 10000) with
      | Except.error _ =>
        (RouteResponse.ok result,
          [Call.getTrainedModels 1000 query (optTruthy modelId),
           Call.getTrainedModelsStats (optTruthy modelId) (some 10000)])
      | Except.ok stats =>
        match client.getModelsPipelines
            (modelIdsAndAliases result
              (buildDeploymentsMap stats.trained_model_stats)) with
        | Except.error _ =>
          (RouteResponse.ok result,
            [Call.getTrainedModels 1000 query (optTruthy modelId),
             Call.getTrainedModelsStats (optTruthy modelId) (some 10000),
             Call.getModelsPipelines
               (modelIdsAndAliases result
                 (buildDeploymentsMap stats.trained_model_stats))])
        | Except.ok pipelinesResponse =>
          (RouteResponse.ok (result.map
              (enrichModel pipelinesResponse
                (buildDeploymentsMap stats.trained_model_stats))),
            [Call.getTrainedModels 1000 query (optTruthy modelId),
             Call.getTrainedModelsStats (optTruthy modelId) (some 10000),
             Call.getModelsPipelines
               (modelIdsAndAliases result
                 (buildDeploymentsMap stats.trained_model_stats))])
    else
      (RouteResponse.ok result,
        [Call.getTrainedModels 1000 query (optTruthy modelId)])

/-- `GET /api/ml/trained_models/_stats` (source lines 135-153). -/
def getStatsRoute {ε : Type} (client : MlClient ε) :
    RouteResponse StatsResponse ε × List Call :=
  match client.getTrainedModelsStats none none with
  | Except.ok body =>
    (RouteResponse.ok body, [Call.getTrainedModelsStats none none])
  | Except.error e =>
    (RouteResponse.customError (wrapError e),
      [Call.getTrainedModelsStats none none])

/-- `GET /api/ml/trained_models/{modelId}/_stats` (source lines 162-185). -/
def getModelStatsRoute {ε : Type} (client : MlClient ε) (modelId : String) :
    RouteResponse StatsResponse ε × List Call :=
  match client.getTrainedModelsStats (optTruthy (some modelId)) none with
  | Except.ok body =>
    (RouteResponse.ok body,
      [Call.getTrainedModelsStats (optTruthy (some modelId)) none])
  | Except.error e =>
    (RouteResponse.customError (wrapError e),
      [Call.getTrainedModelsStats (optTruthy (some modelId)) none])

/-- An entry of the `GET {modelId}/pipelines` response body. -/
structure ModelPipelines where
  model_id : String
  pipelines : PipeMap
deriving Repr, DecidableEq

/-- `GET /api/ml/trained_models/{modelId}/pipelines` (source lines 194-215):
the map returned by `getModelsPipelines(modelId.split(','))` reshaped into an
array of `{ model_id, pipelines }` records. -/
def getPipelinesRoute {ε : Type} (client : MlClient ε) (modelId : String) :
    RouteResponse (List ModelPipelines) ε × List Call :=
  match client.getModelsPipelines (modelId.splitOn ",") with
  | Except.ok result =>
    (RouteResponse.ok (result.map (fun kv => ⟨kv.1, kv.2⟩)),
      [Call.getModelsPipelines (modelId.splitOn ",")])
  | Except.error e =>
    (RouteResponse.customError (wrapError e),
      [Call.getModelsPipelines (modelId.splitOn ",")])

/-- `PUT /api/ml/trained_models/{modelId}` (source lines 224-253);
`defer_definition_decompression` is included exactly when the query flag is
truthy. -/
def putModelRoute {ε : Type} (client : MlClient ε) (modelId : String)
    (body : String) (deferDD : Option Bool) :
    RouteResponse String ε × List Call :=
  match client.putTrainedModel modelId body (deferDD.getD false) with
  | Except.ok res =>
    (RouteResponse.ok res,
      [Call.putTrainedModel modelId body (deferDD.getD false)])
  | Except.error e =>
    (RouteResponse.customError (wrapError e),
      [Call.putTrainedModel modelId body (deferDD.getD false)])

/-- `DELETE /api/ml/trained_models/{modelId}` (source lines 262-285). -/
def deleteModelRoute {ε : Type} (client : MlClient ε) (modelId : String) :
    RouteResponse String ε × List Call :=
  match client.deleteTrainedModel modelId with
  | Except.ok res => (RouteResponse.ok res, [Call.deleteTrainedModel modelId])
  | Except.error e =>
    (RouteResponse.customError (wrapError e), [Call.deleteTrainedModel modelId])

/-- `POST .../deployment/_start` (source lines 294-319); the threading query
params are spread into the call when present. -/
def startDeploymentRoute {ε : Type} (client : MlClient ε) (modelId : String)
    (queryParams : Option String) : RouteResponse String ε × List Call :=
  match client.startTrainedModelDeployment modelId queryParams with
  | Except.ok res =>
    (RouteResponse.ok res, [Call.startDeployment modelId queryParams])
  | Except.error e =>
    (RouteResponse.customError (wrapError e),
      [Call.startDeployment modelId queryParams])

/-- `POST .../deployment/_update` (source lines 328-353). -/
def updateDeploymentRoute {ε : Type} (client : MlClient ε) (modelId : String)
    (body : String) : RouteResponse String ε × List Call :=
  match client.updateTrainedModelDeployment modelId body with
  | Except.ok res =>
    (RouteResponse.ok res, [Call.updateDeployment modelId body])
  | Except.error e =>
    (RouteResponse.customError (wrapError e),
      [Call.updateDeployment modelId body])

/-- `POST .../deployment/_stop` (source lines 362-387);
`force: request.query.force ?? false`. -/
def stopDeploymentRoute {ε : Type} (client : MlClient ε) (modelId : String)
    (force : Option Bool) : RouteResponse String ε × List Call :=
  match client.stopTrainedModelDeployment modelId (force.getD false) with
  | Except.ok res =>
    (RouteResponse.ok res, [Call.stopDeployment modelId (force.getD false)])
  | Except.error e =>
    (RouteResponse.customError (wrapError e),
      [Call.stopDeployment modelId (force.getD false)])

/-- `POST /api/ml/trained_models/pipeline_simulate` (source lines 396-420);
runs on `client.asInternalUser.ingest.simulate`. -/
def pipelineSimulateRoute {ε : Type} (client : MlClient ε) (pipeline : String)
    (docs : String) : RouteResponse String ε × List Call :=
  match client.ingestSimulate pipeline docs with
  | Except.ok res =>
    (RouteResponse.ok res, [Call.ingestSimulate pipeline docs])
  | Except.error e =>
    (RouteResponse.customError (wrapError e),
      [Call.ingestSimulate pipeline docs])

/-- `POST /api/ml/trained_models/infer/{modelId}` (source lines 429-461);
`inference_config` is included when present in the body, `timeout` when the
query value is truthy. -/
def inferRoute {ε : Type} (client : MlClient ε) (modelId : String)
    (docs : String) (inferenceConfig : Option String)
    (timeout : Option String) : RouteResponse String ε × List Call :=
  match client.inferTrainedModel modelId docs inferenceConfig
      (optTruthy timeout) with
  | Except.ok res =>
    (RouteResponse.ok res,
      [Call.inferTrainedModel modelId docs inferenceConfig (optTruthy timeout)])
  | Except.error e =>
    (RouteResponse.customError (wrapError e),
      [Call.inferTrainedModel modelId docs inferenceConfig (optTruthy timeout)])

/-- The answer of a thin proxy as the spec words it: the client call's
result with HTTP 200, and `customError(wrapError(e))` when the call throws.
This is the spec-side definition the handlers are compared against. -/
def proxyResponse {ε α : Type} : Except ε α → RouteResponse α ε
  | Except.ok b => RouteResponse.ok b
  | Except.error e => RouteResponse.customError (wrapError e)

/-- A concrete client whose stats method throws and whose other methods
answer: exhibits the `GET {modelId}?with_pipelines` handler answering 200
although a client call it made has thrown. -/
def clientStatsFail : MlClient String :=
  ⟨fun _ _ _ => Except.ok [⟨"m1", [], none⟩],
    fun _ _ => Except.error "stats boom",
    fun _ _ _ => Except.ok "put",
    fun _ => Except.ok "deleted",
    fun _ _ => Except.ok "started",
    fun _ _ => Except.ok "updated",
    fun _ _ => Except.ok "stopped",
    fun _ _ _ _ => Except.ok "inferred",
    fun _ _ => Except.ok "simulated",
    fun _ => Except.ok []⟩

end TrainedModels

namespace MsgSign

section Lemmas

variable {ε : Type} {env : Env ε} {s s1 s2 : Store} {e : ε}

lemma truthy_getD_ne {o : Option String} (h : truthy o = true) : o.getD "" ≠ "" := by
  cases o with
  | none => simp [truthy] at h
  | some v => simpa [truthy] using h

lemma invalid_cond (a : MessageSigningKeys) :
    (!truthy a.private_key || !truthy a.public_key ||
      !truthy (jsOr a.passphrase a.passphrase_plain)) = !validAttrs a := by
  cases h1 : truthy a.private_key <;> cases h2 : truthy a.public_key <;>
    cases h3 : truthy (jsOr a.passphrase a.passphrase_plain) <;>
      simp [validAttrs, h1, h2, h3]

lemma jsOrStr_ne_empty {a : Option String} {b : String} (h : b ≠ "") :
    jsOrStr a b ≠ "" := by
  cases a with
  | none => simpa [jsOrStr] using h
  | some v =>
    by_cases hv : v = "" <;> simp [jsOrStr, hv, h]

lemma check_find_err (s : Store) (hf : env.soFindErr = some e) :
    checkForExistingKeyPair env s = (Except.error (SvcErr.dep e), s, []) := by
  simp [checkForExistingKeyPair, getCurrentKeyPairObj, mBind, soFindOp, hf]

lemma check_no_pair (hf : env.soFindErr = none) (h : s.objs.head? = none) :
    checkForExistingKeyPair env s = (Except.ok none, s, [Effect.soFind]) := by
  simp [checkForExistingKeyPair, getCurrentKeyPairObj, mBind, soFindOp, hf, h, mPure]

lemma check_no_attrs {so : SavedObject} (hf : env.soFindErr = none)
    (h : s.objs.head? = some so) (ha : so.attributes = none) :
    checkForExistingKeyPair env s = (Except.ok none, s, [Effect.soFind]) := by
  simp [checkForExistingKeyPair, getCurrentKeyPairObj, mBind, soFindOp, hf, h, ha, mPure]

lemma check_invalid {so : SavedObject} {a : MessageSigningKeys}
    (hf : env.soFindErr = none) (h : s.objs.head? = some so)
    (ha : so.attributes = some a) (hv : validAttrs a = false) :
    checkForExistingKeyPair env s = (Except.ok none, s, [Effect.soFind]) := by
  simp [checkForExistingKeyPair, getCurrentKeyPairObj, mBind, soFindOp, hf, h, ha,
    mPure, invalid_cond, hv]

lemma check_valid_no_migrate {so : SavedObject} {a : MessageSigningKeys}
    (hf : env.soFindErr = none) (h : s.objs.head? = some so)
    (ha : so.attributes = some a) (hv : validAttrs a = true)
    (hm : (truthy a.passphrase_plain && env.canEncrypt) = false) :
    checkForExistingKeyPair env s =
      (Except.ok (some (storedTriple a)), s, [Effect.soFind]) := by
  simp [checkForExistingKeyPair, getCurrentKeyPairObj, mBind, soFindOp, hf, h, ha,
    mPure, invalid_cond, hv, hm, storedTriple]

lemma check_valid_migrate {so : SavedObject} {a : MessageSigningKeys}
    (hf : env.soFindErr = none) (hu : env.soUpdateErr = none)
    (h : s.objs.head? = some so) (ha : so.attributes = some a)
    (hv : validAttrs a = true)
    (hm : (truthy a.passphrase_plain && env.canEncrypt) = true) :
    checkForExistingKeyPair env s =
      (Except.ok (some (storedTriple a)), s.update so.id (migrated a),
        [Effect.soFind, Effect.soUpdate so.id (migrated a)]) := by
  simp [checkForExistingKeyPair, getCurrentKeyPairObj, mBind, soFindOp, hf, h, ha,
    mPure, invalid_cond, hv, hm, soUpdateOp, hu, storedTriple, migrated]

lemma check_valid_migrate_err {so : SavedObject} {a : MessageSigningKeys}
    (hf : env.soFindErr = none) (hu : env.soUpdateErr = some e)
    (h : s.objs.head? = some so) (ha : so.attributes = some a)
    (hv : validAttrs a = true)
    (hm : (truthy a.passphrase_plain && env.canEncrypt) = true) :
    checkForExistingKeyPair env s =
      (Except.error (SvcErr.dep e), s, [Effect.soFind]) := by
  simp [checkForExistingKeyPair, getCurrentKeyPairObj, mBind, soFindOp, hf, h, ha,
    mPure, invalid_cond, hv, hm, soUpdateOp, hu]

lemma generateKeyPair_of_check_some (p : Option String) {t : KeyTriple}
    {tr : List Effect}
    (h : checkForExistingKeyPair env s = (Except.ok (some t), s1, tr)) :
    generateKeyPair env p s = (Except.ok t, s1, tr) := by
  simp [generateKeyPair, mBind, h, mPure]

lemma generateKeyPair_of_check_err (p : Option String) {err : SvcErr ε}
    {tr : List Effect}
    (h : checkForExistingKeyPair env s = (Except.error err, s1, tr)) :
    generateKeyPair env p s = (Except.error err, s1, tr) := by
  simp [generateKeyPair, mBind, h]

lemma generateKeyPair_fresh (p : Option String) {tr : List Effect}
    (hg : env.genErr = none) (hc : env.soCreateErr = none)
    (h : checkForExistingKeyPair env s = (Except.ok none, s1, tr)) :
    generateKeyPair env p s =
      (Except.ok (freshTriple env (jsOrStr p env.randPassphrase)),
        (s1.create (freshAttrs env (jsOrStr p env.randPassphrase))).2,
        tr ++ [Effect.cryptoGen (ecKeyGenOptions (jsOrStr p env.randPassphrase)),
               Effect.soCreate (freshAttrs env (jsOrStr p env.randPassphrase))]) := by
  cases henc : env.canEncrypt <;>
    simp [generateKeyPair, mBind, h, cryptoGenOp, hg, soCreateOp, hc, mPure,
      freshTriple, freshAttrs, henc, Store.create]

lemma generateKeyPair_genErr (p : Option String) {tr : List Effect}
    (hg : env.genErr = some e)
    (h : checkForExistingKeyPair env s = (Except.ok none, s1, tr)) :
    generateKeyPair env p s = (Except.error (SvcErr.dep e), s1, tr) := by
  simp [generateKeyPair, mBind, h, cryptoGenOp, hg]

lemma generateKeyPair_createErr (p : Option String) {tr : List Effect}
    (hg : env.genErr = none) (hc : env.soCreateErr = some e)
    (h : checkForExistingKeyPair env s = (Except.ok none, s1, tr)) :
    generateKeyPair env p s =
      (Except.error (SvcErr.dep e), s1,
        tr ++ [Effect.cryptoGen (ecKeyGenOptions (jsOrStr p env.randPassphrase))]) := by
  simp [generateKeyPair, mBind, h, cryptoGenOp, hg, soCreateOp, hc]

/-- Exhaustive case analysis of a `checkForExistingKeyPair` run. -/
lemma check_cases (env : Env ε) (s : Store) :
    (∃ e, env.soFindErr = some e ∧
      checkForExistingKeyPair env s = (Except.error (SvcErr.dep e), s, [])) ∨
    (env.soFindErr = none ∧ hasValidKeyPair s = false ∧
      checkForExistingKeyPair env s = (Except.ok none, s, [Effect.soFind])) ∨
    (∃ so a, env.soFindErr = none ∧ s.objs.head? = some so ∧
      so.attributes = some a ∧ validAttrs a = true ∧
      (((truthy a.passphrase_plain && env.canEncrypt) = false ∧
          checkForExistingKeyPair env s =
            (Except.ok (some (storedTriple a)), s, [Effect.soFind])) ∨
       ((truthy a.passphrase_plain && env.canEncrypt) = true ∧
         ((∃ e, env.soUpdateErr = some e ∧
            checkForExistingKeyPair env s =
              (Except.error (SvcErr.dep e), s, [Effect.soFind])) ∨
          (env.soUpdateErr = none ∧
            checkForExistingKeyPair env s =
              (Except.ok (some (storedTriple a)), s.update so.id (migrated a),
                [Effect.soFind, Effect.soUpdate so.id (migrated a)])))))) := by
  cases hf : env.soFindErr with
  | some e => exact Or.inl ⟨e, rfl, check_find_err s hf⟩
  | none =>
    cases hh : s.objs.head? with
    | none =>
      exact Or.inr (Or.inl ⟨rfl, by simp [hasValidKeyPair, hh], check_no_pair hf hh⟩)
    | some so =>
      cases ha : so.attributes with
      | none =>
        exact Or.inr (Or.inl ⟨rfl, by simp [hasValidKeyPair, hh, ha],
          check_no_attrs hf hh ha⟩)
      | some a =>
        cases hv : validAttrs a with
        | false =>
          exact Or.inr (Or.inl ⟨rfl, by simp [hasValidKeyPair, hh, ha, hv],
            check_invalid hf hh ha hv⟩)
        | true =>
          refine Or.inr (Or.inr ⟨so, a, rfl, rfl, ha, hv, ?_⟩)
          cases hm : (truthy a.passphrase_plain && env.canEncrypt) with
          | false => exact Or.inl ⟨rfl, check_valid_no_migrate hf hh ha hv hm⟩
          | true =>
            refine Or.inr ⟨rfl, ?_⟩
            cases hu : env.soUpdateErr with
            | some e => exact Or.inl ⟨e, rfl, check_valid_migrate_err hf hu hh ha hv hm⟩
            | none => exact Or.inr ⟨rfl, check_valid_migrate hf hu hh ha hv hm⟩

/-- Any triple `checkForExistingKeyPair` accepts has non-empty components. -/
lemma storedTriple_nonempty {a : MessageSigningKeys} (hv : validAttrs a = true) :
    (storedTriple a).privateKey ≠ "" ∧ (storedTriple a).publicKey ≠ "" ∧
      (storedTriple a).passphrase ≠ "" := by
  have h := hv
  simp [validAttrs, Bool.and_eq_true] at h
  exact ⟨truthy_getD_ne h.1.1, truthy_getD_ne h.1.2, truthy_getD_ne h.2⟩

/-- A triple returned by `checkForExistingKeyPair` has non-empty components. -/
lemma check_some_nonempty {t : KeyTriple} {tr : List Effect}
    (h : checkForExistingKeyPair env s = (Except.ok (some t), s1, tr)) :
    t.privateKey ≠ "" ∧ t.publicKey ≠ "" ∧ t.passphrase ≠ "" := by
  rcases check_cases env s with ⟨e, _, hrun⟩ | ⟨_, _, hrun⟩ |
      ⟨so, a, _, _, _, hv, ⟨_, hrun⟩ | ⟨_, ⟨e, _, hrun⟩ | ⟨_, hrun⟩⟩⟩ <;>
    rw [hrun] at h <;> simp_all <;> exact h.1 ▸ storedTriple_nonempty hv

/-- A triple returned by `generateKeyPair` has non-empty components, provided
the cryptographic primitives are honest (claim C9 core). -/
lemma generate_ok_nonempty {p : Option String} {kp : KeyTriple} {tr : List Effect}
    (hcw : env.cryptoWf)
    (h : generateKeyPair env p s = (Except.ok kp, s1, tr)) :
    kp.privateKey ≠ "" ∧ kp.publicKey ≠ "" ∧ kp.passphrase ≠ "" := by
  rcases hrun : checkForExistingKeyPair env s with ⟨res, sc, tc⟩
  cases res with
  | error err =>
    rw [generateKeyPair_of_check_err p hrun] at h
    simp at h
  | ok o =>
    cases o with
    | some t =>
      rw [generateKeyPair_of_check_some p hrun] at h
      simp only [Prod.mk.injEq, Except.ok.injEq] at h
      obtain ⟨rfl, -, -⟩ := h
      exact check_some_nonempty hrun
    | none =>
      cases hg : env.genErr with
      | some e =>
        rw [generateKeyPair_genErr p hg hrun] at h
        simp at h
      | none =>
        cases hc : env.soCreateErr with
        | some e =>
          rw [generateKeyPair_createErr p hg hc hrun] at h
          simp at h
        | none =>
          rw [generateKeyPair_fresh p hg hc hrun] at h
          simp only [Prod.mk.injEq, Except.ok.injEq] at h
          obtain ⟨rfl, -, -⟩ := h
          exact ⟨(hcw.2 _).1, (hcw.2 _).2, jsOrStr_ne_empty hcw.1⟩

/-- When the store holds no acceptable key pair, the check returns nothing
and leaves the store untouched. -/
lemma check_of_not_valid (hf : env.soFindErr = none)
    (h : hasValidKeyPair s = false) :
    checkForExistingKeyPair env s = (Except.ok none, s, [Effect.soFind]) := by
  cases hh : s.objs.head? with
  | none => exact check_no_pair hf hh
  | some so =>
    cases ha : so.attributes with
    | none => exact check_no_attrs hf hh ha
    | some a =>
      have hv : validAttrs a = false := by simpa [hasValidKeyPair, hh, ha] using h
      exact check_invalid hf hh ha hv

lemma check_none_not_valid {tr : List Effect}
    (h : checkForExistingKeyPair env s = (Except.ok none, s1, tr)) :
    hasValidKeyPair s = false := by
  rcases check_cases env s with ⟨e, _, hrun⟩ | ⟨_, hv, _⟩ |
      ⟨so, a, _, _, _, _, ⟨_, hrun⟩ | ⟨_, ⟨e, _, hrun⟩ | ⟨_, hrun⟩⟩⟩
  · rw [hrun] at h; simp at h
  · exact hv
  all_goals (rw [hrun] at h; simp at h)

lemma check_err_dep {err : SvcErr ε} {tr : List Effect}
    (h : checkForExistingKeyPair env s = (Except.error err, s1, tr)) :
    ∃ e, err = SvcErr.dep e := by
  rcases check_cases env s with ⟨e, _, hrun⟩ | ⟨_, _, hrun⟩ |
      ⟨so, a, _, _, _, _, ⟨_, hrun⟩ | ⟨_, ⟨e, _, hrun⟩ | ⟨_, hrun⟩⟩⟩ <;>
    rw [hrun] at h <;> simp at h
  · exact ⟨e, h.1.symm⟩
  · exact ⟨e, h.1.symm⟩

/-- `generateKeyPair` only fails with a dependency error, never with one of
the service's own message errors. -/
lemma generate_err_dep {p : Option String} {err : SvcErr ε} {tr : List Effect}
    (h : generateKeyPair env p s = (Except.error err, s1, tr)) :
    ∃ e, err = SvcErr.dep e := by
  rcases hrun : checkForExistingKeyPair env s with ⟨res, sc, tc⟩
  cases res with
  | error err2 =>
    rw [generateKeyPair_of_check_err p hrun] at h
    obtain ⟨rfl, -, -⟩ : err2 = err ∧ sc = s1 ∧ tc = tr := by simpa using h
    exact check_err_dep hrun
  | ok o =>
    cases o with
    | some t =>
      rw [generateKeyPair_of_check_some p hrun] at h
      simp at h
    | none =>
      cases hg : env.genErr with
      | some e =>
        rw [generateKeyPair_genErr p hg hrun] at h
        simp only [Prod.mk.injEq, Except.error.injEq] at h
        exact ⟨e, h.1.symm⟩
      | none =>
        cases hc : env.soCreateErr with
        | some e =>
          rw [generateKeyPair_createErr p hg hc hrun] at h
          simp only [Prod.mk.injEq, Except.error.injEq] at h
          exact ⟨e, h.1.symm⟩
        | none =>
          rw [generateKeyPair_fresh p hg hc hrun] at h
          simp at h

lemma sign_of_generate (m : Message) {kp : KeyTriple} {tr : List Effect}
    (hs : env.signErr = none)
    (h : generateKeyPair env none s = (Except.ok kp, s1, tr))
    (hpk : kp.privateKey ≠ "") (hpp : kp.passphrase ≠ "") :
    sign env m s =
      (Except.ok (msgBytes m,
          env.signFn "SHA256" kp.privateKey kp.passphrase (msgBytes m) "base64"),
        s1,
        tr ++ [Effect.cryptoSign "SHA256" kp.privateKey kp.passphrase
                 (msgBytes m) "base64"]) := by
  cases m <;>
    simp [sign, mBind, h, cryptoSignOp, hs, mPure, msgBytes, hpk, hpp]

lemma sign_signErr {kp : KeyTriple} {tr : List Effect} {m : Message}
    (hs : env.signErr = some e)
    (h : generateKeyPair env none s = (Except.ok kp, s1, tr))
    (hpk : kp.privateKey ≠ "") (hpp : kp.passphrase ≠ "") :
    sign env m s = (Except.error (SvcErr.dep e), s1, tr) := by
  cases m <;>
    simp [sign, mBind, h, cryptoSignOp, hs, hpk, hpp]

lemma sign_of_generate_err {err : SvcErr ε} {tr : List Effect} {m : Message}
    (h : generateKeyPair env none s = (Except.error err, s1, tr)) :
    sign env m s = (Except.error err, s1, tr) := by
  simp [sign, mBind, h]

lemma getPublicKey_of_generate {kp : KeyTriple} {tr : List Effect}
    (h : generateKeyPair env none s = (Except.ok kp, s1, tr))
    (hp : kp.publicKey ≠ "") :
    getPublicKey env s = (Except.ok kp.publicKey, s1, tr) := by
  simp [getPublicKey, mBind, h, mPure, hp]

lemma getPublicKey_of_generate_err {err : SvcErr ε} {tr : List Effect}
    (h : generateKeyPair env none s = (Except.error err, s1, tr)) :
    getPublicKey env s = (Except.error err, s1, tr) := by
  simp [getPublicKey, mBind, h]

lemma removeKeyPair_find_err (hf : env.soFindErr = some e) :
    removeKeyPair env s = (Except.error (SvcErr.dep e), s, []) := by
  simp [removeKeyPair, getCurrentKeyPairObj, mBind, soFindOp, hf]

lemma removeKeyPair_none (hf : env.soFindErr = none) (h : s.objs.head? = none) :
    removeKeyPair env s = (Except.ok false, s, [Effect.soFind]) := by
  simp [removeKeyPair, getCurrentKeyPairObj, mBind, soFindOp, hf, h, mPure]

lemma removeKeyPair_some {so : SavedObject} (hf : env.soFindErr = none)
    (hd : env.soDeleteErr = none) (h : s.objs.head? = some so) :
    removeKeyPair env s =
      (Except.ok true, s.delete so.id, [Effect.soFind, Effect.soDelete so.id]) := by
  simp [removeKeyPair, getCurrentKeyPairObj, mBind, soFindOp, hf, h, soDeleteOp,
    hd, mPure]

lemma removeKeyPair_delete_err {so : SavedObject} (hf : env.soFindErr = none)
    (hd : env.soDeleteErr = some e) (h : s.objs.head? = some so) :
    removeKeyPair env s = (Except.error (SvcErr.dep e), s, [Effect.soFind]) := by
  simp [removeKeyPair, getCurrentKeyPairObj, mBind, soFindOp, hf, h, soDeleteOp, hd]

lemma rotate_of_remove_false {tr : List Effect}
    (h : removeKeyPair env s = (Except.ok false, s1, tr)) :
    rotateKeyPair env s = (Except.ok false, s1, tr) := by
  simp [rotateKeyPair, mBind, h, mPure]

lemma rotate_of_remove_err {err : SvcErr ε} {tr : List Effect}
    (h : removeKeyPair env s = (Except.error err, s1, tr)) :
    rotateKeyPair env s = (Except.error err, s1, tr) := by
  simp [rotateKeyPair, mBind, h]

lemma rotate_of_remove_true {kp : KeyTriple} {t1 t2 : List Effect}
    (h : removeKeyPair env s = (Except.ok true, s1, t1))
    (hg : generateKeyPair env none s1 = (Except.ok kp, s2, t2)) :
    rotateKeyPair env s = (Except.ok true, s2, t1 ++ t2) := by
  simp [rotateKeyPair, mBind, h, hg, mPure]

lemma rotate_of_remove_true_err {err : SvcErr ε} {t1 t2 : List Effect}
    (h : removeKeyPair env s = (Except.ok true, s1, t1))
    (hg : generateKeyPair env none s1 = (Except.error err, s2, t2)) :
    rotateKeyPair env s = (Except.error err, s2, t1 ++ t2) := by
  simp [rotateKeyPair, mBind, h, hg]

lemma truthy_eq_some {o : Option String} (h : truthy o = true) :
    o = some (o.getD "") := by
  cases o <;> simp_all [truthy]

lemma hasValid_dest (h : hasValidKeyPair s = true) :
    ∃ so a, s.objs.head? = some so ∧ so.attributes = some a ∧
      validAttrs a = true := by
  cases hh : s.objs.head? with
  | none => simp [hasValidKeyPair, hh] at h
  | some so =>
    cases ha : so.attributes with
    | none => simp [hasValidKeyPair, hh, ha] at h
    | some a =>
      have hv : validAttrs a = true := by simpa [hasValidKeyPair, hh, ha] using h
      exact ⟨so, a, rfl, ha, hv⟩

lemma jsOr_some_empty {x : Option String} (h : truthy x = true) :
    jsOr x (some "") = x := by
  simp [jsOr, h]

lemma validAttrs_migrated {a : MessageSigningKeys} (hv : validAttrs a = true) :
    validAttrs (migrated a) = true := by
  simp only [validAttrs, Bool.and_eq_true] at hv
  obtain ⟨⟨h1, h2⟩, h3⟩ := hv
  simp only [validAttrs, migrated, Bool.and_eq_true]
  exact ⟨⟨h1, h2⟩, by rw [jsOr_some_empty h3]; exact h3⟩

lemma storedTriple_migrated {a : MessageSigningKeys}
    (h3 : truthy (jsOr a.passphrase a.passphrase_plain) = true) :
    storedTriple (migrated a) = storedTriple a := by
  simp only [storedTriple, migrated]
  rw [jsOr_some_empty h3]

lemma migrated_no_migrate {a : MessageSigningKeys} :
    (truthy (migrated a).passphrase_plain && env.canEncrypt) = false := by
  simp [migrated, truthy]

lemma head_update (A : MessageSigningKeys) {so : SavedObject}
    (hh : s.objs.head? = some so) :
    (s.update so.id A).objs.head? = some ⟨so.id, some A⟩ := by
  cases hobjs : s.objs with
  | nil => rw [hobjs] at hh; simp at hh
  | cons x rest =>
    rw [hobjs] at hh
    obtain rfl : x = so := by simpa using hh
    simp [Store.update, hobjs]

lemma validAttrs_freshAttrs (hcw : env.cryptoWf) {pass : String} (hp : pass ≠ "") :
    validAttrs (freshAttrs env pass) = true := by
  cases henc : env.canEncrypt <;>
    simp [freshAttrs, henc, validAttrs, truthy, jsOr,
      (hcw.2 (ecKeyGenOptions pass)).1, (hcw.2 (ecKeyGenOptions pass)).2, hp]

lemma freshAttrs_no_migrate {pass : String} :
    (truthy (freshAttrs env pass).passphrase_plain && env.canEncrypt) = false := by
  cases henc : env.canEncrypt <;> simp [freshAttrs, henc, truthy]

lemma storedTriple_freshAttrs {pass : String} (hp : pass ≠ "") :
    storedTriple (freshAttrs env pass) = freshTriple env pass := by
  cases henc : env.canEncrypt <;>
    simp [freshAttrs, freshTriple, storedTriple, jsOr, truthy, henc, hp]

lemma freshAttrs_public_key {pass : String} :
    (freshAttrs env pass).public_key =
      some (env.genKeyPair (ecKeyGenOptions pass)).2 := by
  cases henc : env.canEncrypt <;> simp [freshAttrs, henc]

/-- With no failing dependency, `generateKeyPair` always succeeds. -/
lemma generate_ok_total (s : Store) (hnf : env.noFail) (p : Option String) :
    ∃ kp s1 tr, generateKeyPair env p s = (Except.ok kp, s1, tr) := by
  obtain ⟨hg, hsg, hf, hc, hu, hd⟩ := hnf
  cases hval : hasValidKeyPair s with
  | false =>
    exact ⟨_, _, _, generateKeyPair_fresh p hg hc (check_of_not_valid hf hval)⟩
  | true =>
    obtain ⟨so, a, hh, ha, hv⟩ := hasValid_dest hval
    cases hm : (truthy a.passphrase_plain && env.canEncrypt) with
    | false =>
      exact ⟨_, _, _,
        generateKeyPair_of_check_some p (check_valid_no_migrate hf hh ha hv hm)⟩
    | true =>
      exact ⟨_, _, _,
        generateKeyPair_of_check_some p (check_valid_migrate hf hu hh ha hv hm)⟩

lemma inv_generate (p : Option String) (hwf : env.wf) (hinv : Inv s) :
    Inv (generateKeyPair env p s).2.1 := by
  obtain ⟨⟨hg, hsg, hf, hc, hu, hd⟩, hcw⟩ := hwf
  rcases hinv with hemp | ⟨so, a, hso, ha, hv⟩
  · have hval : hasValidKeyPair s = false := by simp [hasValidKeyPair, hemp]
    rw [generateKeyPair_fresh p hg hc (check_of_not_valid hf hval)]
    exact Or.inr
      ⟨⟨s.nextId, some (freshAttrs env (jsOrStr p env.randPassphrase))⟩,
        freshAttrs env (jsOrStr p env.randPassphrase),
        by simp [Store.create, hemp], rfl,
        validAttrs_freshAttrs hcw (jsOrStr_ne_empty hcw.1)⟩
  · have hh : s.objs.head? = some so := by simp [hso]
    cases hm : (truthy a.passphrase_plain && env.canEncrypt) with
    | false =>
      rw [generateKeyPair_of_check_some p (check_valid_no_migrate hf hh ha hv hm)]
      exact Or.inr ⟨so, a, hso, ha, hv⟩
    | true =>
      rw [generateKeyPair_of_check_some p (check_valid_migrate hf hu hh ha hv hm)]
      exact Or.inr ⟨⟨so.id, some (migrated a)⟩, migrated a,
        by simp [Store.update, hso], rfl, validAttrs_migrated hv⟩

lemma inv_sign {m : Message} (hwf : env.wf) (hinv : Inv s) :
    Inv (sign env m s).2.1 := by
  obtain ⟨kp, s1, tr, hgen⟩ := generate_ok_total s hwf.1 none
  obtain ⟨h1, h2, h3⟩ := generate_ok_nonempty hwf.2 hgen
  rw [sign_of_generate m hwf.1.2.1 hgen h1 h3]
  have hpost := inv_generate none hwf hinv
  rw [hgen] at hpost
  exact hpost

lemma inv_getPublicKey (hwf : env.wf) (hinv : Inv s) :
    Inv (getPublicKey env s).2.1 := by
  obtain ⟨kp, s1, tr, hgen⟩ := generate_ok_total s hwf.1 none
  obtain ⟨h1, h2, h3⟩ := generate_ok_nonempty hwf.2 hgen
  rw [getPublicKey_of_generate hgen h2]
  have hpost := inv_generate none hwf hinv
  rw [hgen] at hpost
  exact hpost

lemma inv_rotate (hwf : env.wf) (hinv : Inv s) :
    Inv (rotateKeyPair env s).2.1 := by
  obtain ⟨⟨hg, hsg, hf, hc, hu, hd⟩, hcw⟩ := hwf
  rcases hinv with hemp | ⟨so, a, hso, ha, hv⟩
  · rw [rotate_of_remove_false
      (removeKeyPair_none hf (show s.objs.head? = none by simp [hemp]))]
    exact Or.inl hemp
  · have hrm := removeKeyPair_some hf hd
      (show s.objs.head? = some so by simp [hso])
    have hdel : s.delete so.id = Store.mk [] s.nextId := by
      simp [Store.delete, hso]
    rw [hdel] at hrm
    have hgen := generateKeyPair_fresh none hg hc
      (check_of_not_valid hf
        (show hasValidKeyPair (Store.mk [] s.nextId) = false by
          simp [hasValidKeyPair]))
    rw [rotate_of_remove_true hrm hgen]
    exact Or.inr
      ⟨⟨s.nextId, some (freshAttrs env (jsOrStr none env.randPassphrase))⟩,
        freshAttrs env (jsOrStr none env.randPassphrase),
        by simp [Store.create], rfl,
        validAttrs_freshAttrs hcw (jsOrStr_ne_empty hcw.1)⟩

/-- Every service-reachable store satisfies the invariant. -/
lemma reachable_inv {s : Store} (h : Reachable s) : Inv s := by
  induction h with
  | empty n => exact Or.inl rfl
  | genStep env p hwf _ ih => exact inv_generate p hwf ih
  | signStep env m hwf _ ih => exact inv_sign hwf ih
  | pubStep env hwf _ ih => exact inv_getPublicKey hwf ih
  | rotStep env hwf _ ih => exact inv_rotate hwf ih

/-- A service-reachable store holds at most one saved object. -/
lemma reachable_length {s : Store} (h : Reachable s) : s.objs.length ≤ 1 := by
  rcases reachable_inv h with hemp | ⟨so, a, hso, -, -⟩
  · simp [hemp]
  · simp [hso]

end Lemmas

end MsgSign

/-! ## Claims about the message signing service -/

open MsgSign

/-- C1: `generateKeyPair` is create-if-missing.  For every store whose current
(newest) key pair saved object carries a truthy private key, public key and
passphrase (in either passphrase attribute), it returns exactly the stored
triple and its run contains no saved-object creation; when no such key pair
exists it generates a fresh `prime256v1` EC key pair, persists it with a
single create, and returns the new keys and passphrase. -/
theorem generateKeyPair_create_if_missing {ε : Type} (env : Env ε)
    (s : Store) (p : Option String) (hnf : env.noFail) :
    (∀ so a, s.objs.head? = some so → so.attributes = some a →
        validAttrs a = true →
        (generateKeyPair env p s).1 = Except.ok (storedTriple a) ∧
        ∀ x, Effect.soCreate x ∉ (generateKeyPair env p s).2.2) ∧
    (hasValidKeyPair s = false →
        generateKeyPair env p s =
          (Except.ok (freshTriple env (jsOrStr p env.randPassphrase)),
            (s.create (freshAttrs env (jsOrStr p env.randPassphrase))).2,
            [Effect.soFind,
             Effect.cryptoGen (ecKeyGenOptions (jsOrStr p env.randPassphrase)),
             Effect.soCreate (freshAttrs env (jsOrStr p env.randPassphrase))])) := by
  obtain ⟨hg, hsg, hf, hc, hu, hd⟩ := hnf
  refine ⟨?_, ?_⟩
  · intro so a hh ha hv
    cases hm : (truthy a.passphrase_plain && env.canEncrypt) with
    | false =>
      rw [generateKeyPair_of_check_some p (check_valid_no_migrate hf hh ha hv hm)]
      exact ⟨rfl, by intro x; simp⟩
    | true =>
      rw [generateKeyPair_of_check_some p (check_valid_migrate hf hu hh ha hv hm)]
      exact ⟨rfl, by intro x; simp⟩
  · intro hval
    exact generateKeyPair_fresh p hg hc (check_of_not_valid hf hval)

/-- Witness for C1 at a concrete store holding a key pair. -/
theorem generateKeyPair_create_if_missing_witness :
    (generateKeyPair envOkEnc none storeOne).1 =
        Except.ok ⟨"PK", "PUB", "PASS"⟩ ∧
      ∀ x, Effect.soCreate x ∉ (generateKeyPair envOkEnc none storeOne).2.2 :=
  (generateKeyPair_create_if_missing envOkEnc storeOne none
      ⟨rfl, rfl, rfl, rfl, rfl, rfl⟩).1 soStored attrsStored rfl rfl (by decide)

/-- C2: passphrase-encryption toggle.  Whenever `generateKeyPair` persists a
newly generated key pair, the created attributes always carry the private and
public key; the passphrase sits in `passphrase` with no `passphrase_plain`
when encryption is available, and in `passphrase_plain` with no `passphrase`
when it is not. -/
theorem generateKeyPair_passphrase_toggle {ε : Type} (env : Env ε) (s : Store)
    (p : Option String) (hnf : env.noFail) (hval : hasValidKeyPair s = false) :
    Effect.soCreate (freshAttrs env (jsOrStr p env.randPassphrase)) ∈
        (generateKeyPair env p s).2.2 ∧
      (generateKeyPair env p s).2.1.objs.head? =
        some ⟨s.nextId, some (freshAttrs env (jsOrStr p env.randPassphrase))⟩ ∧
      (freshAttrs env (jsOrStr p env.randPassphrase)).private_key =
        some (env.genKeyPair (ecKeyGenOptions (jsOrStr p env.randPassphrase))).1 ∧
      (freshAttrs env (jsOrStr p env.randPassphrase)).public_key =
        some (env.genKeyPair (ecKeyGenOptions (jsOrStr p env.randPassphrase))).2 ∧
      (env.canEncrypt = true →
        (freshAttrs env (jsOrStr p env.randPassphrase)).passphrase =
            some (jsOrStr p env.randPassphrase) ∧
          (freshAttrs env (jsOrStr p env.randPassphrase)).passphrase_plain = none) ∧
      (env.canEncrypt = false →
        (freshAttrs env (jsOrStr p env.randPassphrase)).passphrase = none ∧
          (freshAttrs env (jsOrStr p env.randPassphrase)).passphrase_plain =
            some (jsOrStr p env.randPassphrase)) := by
  obtain ⟨hg, hsg, hf, hc, hu, hd⟩ := hnf
  have hrun := generateKeyPair_fresh p hg hc (check_of_not_valid hf hval)
  rw [hrun]
  refine ⟨by simp, by simp [Store.create], ?_, ?_, ?_, ?_⟩ <;>
    cases henc : env.canEncrypt <;> simp [freshAttrs, henc]

/-- Witness for C2 with encryption unavailable: the passphrase lands in
`passphrase_plain`. -/
theorem generateKeyPair_passphrase_toggle_witness :
    Effect.soCreate ⟨some "PRIV", some "PUB", none, some "RANDPASS"⟩ ∈
        (generateKeyPair envOkPlain none storeEmpty).2.2 ∧
      (freshAttrs envOkPlain "RANDPASS").passphrase = none := by
  have h := generateKeyPair_passphrase_toggle envOkPlain storeEmpty none
      ⟨rfl, rfl, rfl, rfl, rfl, rfl⟩ (by decide)
  exact ⟨h.1, (h.2.2.2.2.2 rfl).1⟩

/-- C8: once a key pair exists in the store, `generateKeyPair` ignores the
provided passphrase entirely: the run with any provided passphrase is the
very same run as with none, and (absent dependency failures) it returns the
stored triple. -/
theorem generateKeyPair_ignores_provided_passphrase {ε : Type} (env : Env ε)
    (s : Store) (p : String) (so : SavedObject) (a : MessageSigningKeys)
    (hh : s.objs.head? = some so) (ha : so.attributes = some a)
    (hv : validAttrs a = true) :
    generateKeyPair env (some p) s = generateKeyPair env none s ∧
      (env.noFail →
        (generateKeyPair env (some p) s).1 = Except.ok (storedTriple a)) := by
  constructor
  · rcases hrun : checkForExistingKeyPair env s with ⟨res, sc, tc⟩
    cases res with
    | error err =>
      rw [generateKeyPair_of_check_err (some p) hrun,
        generateKeyPair_of_check_err none hrun]
    | ok o =>
      cases o with
      | some t =>
        rw [generateKeyPair_of_check_some (some p) hrun,
          generateKeyPair_of_check_some none hrun]
      | none =>
        have hfalse := check_none_not_valid hrun
        simp [hasValidKeyPair, hh, ha, hv] at hfalse
  · intro hnf
    obtain ⟨hg, hsg, hf, hc, hu, hd⟩ := hnf
    cases hm : (truthy a.passphrase_plain && env.canEncrypt) with
    | false =>
      rw [generateKeyPair_of_check_some (some p)
        (check_valid_no_migrate hf hh ha hv hm)]
    | true =>
      rw [generateKeyPair_of_check_some (some p)
        (check_valid_migrate hf hu hh ha hv hm)]

/-- Witness for C8: a provided passphrase is ignored on a store that already
holds a key pair. -/
theorem generateKeyPair_ignores_provided_passphrase_witness :
    generateKeyPair envOkEnc (some "IGNORED") storeOne =
        generateKeyPair envOkEnc none storeOne ∧
      (generateKeyPair envOkEnc (some "IGNORED") storeOne).1 =
        Except.ok ⟨"PK", "PUB", "PASS"⟩ := by
  have h := generateKeyPair_ignores_provided_passphrase envOkEnc storeOne
      "IGNORED" soStored attrsStored rfl rfl (by decide)
  exact ⟨h.1, h.2 ⟨rfl, rfl, rfl, rfl, rfl, rfl⟩⟩

/-- C9: the `unable to find` error branches of `sign` and `getPublicKey` are
unreachable when the cryptographic primitives are honest: every triple
`generateKeyPair` returns has non-empty private key, public key and
passphrase, so `sign` and `getPublicKey` never fail with those messages
(their only failures are propagated dependency errors). -/
theorem sign_error_branches_unreachable {ε : Type} (env : Env ε) (s : Store)
    (p : Option String) (m : Message) (hcw : env.cryptoWf) :
    (∀ kp s1 tr, generateKeyPair env p s = (Except.ok kp, s1, tr) →
        kp.privateKey ≠ "" ∧ kp.publicKey ≠ "" ∧ kp.passphrase ≠ "") ∧
      (sign env m s).1 ≠ Except.error (SvcErr.msg "unable to find private key") ∧
      (sign env m s).1 ≠ Except.error (SvcErr.msg "unable to find passphrase") ∧
      (getPublicKey env s).1 ≠
        Except.error (SvcErr.msg "unable to find public key") := by
  refine ⟨fun kp s1 tr h => generate_ok_nonempty hcw h, ?_, ?_, ?_⟩
  all_goals rcases hrun : generateKeyPair env none s with ⟨res, s1, tr⟩
  all_goals cases res with
    | error err =>
      obtain ⟨e, rfl⟩ := generate_err_dep hrun
      first
        | (rw [sign_of_generate_err hrun]; simp)
        | (rw [getPublicKey_of_generate_err hrun]; simp)
    | ok kp =>
      obtain ⟨h1, h2, h3⟩ := generate_ok_nonempty hcw hrun
      first
        | (cases hs : env.signErr with
            | some e => rw [sign_signErr hs hrun h1 h3]; simp
            | none => rw [sign_of_generate _ hs hrun h1 h3]; simp)
        | (rw [getPublicKey_of_generate hrun h2]; simp)

/-- Witness for C9 at a concrete empty store. -/
theorem sign_error_branches_unreachable_witness :
    (sign envOkEnc (Message.buffer [1]) storeEmpty).1 ≠
        Except.error (SvcErr.msg "unable to find private key") ∧
      (sign envOkEnc (Message.buffer [1]) storeEmpty).1 ≠
        Except.error (SvcErr.msg "unable to find passphrase") ∧
      (getPublicKey envOkEnc storeEmpty).1 ≠
        Except.error (SvcErr.msg "unable to find public key") := by
  have h := sign_error_branches_unreachable envOkEnc storeEmpty none
      (Message.buffer [1])
      ⟨by decide, fun _ => ⟨(by decide : ("PRIV" : String) ≠ ""),
        (by decide : ("PUB" : String) ≠ "")⟩⟩
  exact ⟨h.2.1, h.2.2.1, h.2.2.2⟩

/-- C10: when the current key pair's passphrase is stored only in the plain
`passphrase_plain` attribute and encryption is available, any read
(`generateKeyPair`, `sign`, `getPublicKey`) rewrites the saved object with
the passphrase moved to the encrypted `passphrase` attribute and
`passphrase_plain` emptied, leaving the key attributes and the values
returned to the caller unchanged. -/
theorem passphrase_migration_on_read {ε : Type} (env : Env ε) (s : Store)
    (so : SavedObject) (a : MessageSigningKeys) (plain : String) (m : Message)
    (hnf : env.noFail) (henc : env.canEncrypt = true)
    (hh : s.objs.head? = some so) (ha : so.attributes = some a)
    (hpk : truthy a.private_key = true) (hpub : truthy a.public_key = true)
    (hplain : a.passphrase_plain = some plain) (hne : plain ≠ "")
    (hpe : truthy a.passphrase = false) :
    generateKeyPair env none s =
        (Except.ok ⟨a.private_key.getD "", a.public_key.getD "", plain⟩,
          s.update so.id ⟨a.private_key, a.public_key, some plain, some ""⟩,
          [Effect.soFind,
           Effect.soUpdate so.id
             ⟨a.private_key, a.public_key, some plain, some ""⟩]) ∧
      sign env m s =
        (Except.ok (msgBytes m,
            env.signFn "SHA256" (a.private_key.getD "") plain (msgBytes m)
              "base64"),
          s.update so.id ⟨a.private_key, a.public_key, some plain, some ""⟩,
          [Effect.soFind,
           Effect.soUpdate so.id
             ⟨a.private_key, a.public_key, some plain, some ""⟩,
           Effect.cryptoSign "SHA256" (a.private_key.getD "") plain (msgBytes m)
             "base64"]) ∧
      getPublicKey env s =
        (Except.ok (a.public_key.getD ""),
          s.update so.id ⟨a.private_key, a.public_key, some plain, some ""⟩,
          [Effect.soFind,
           Effect.soUpdate so.id
             ⟨a.private_key, a.public_key, some plain, some ""⟩]) := by
  obtain ⟨hg, hsg, hf, hc, hu, hd⟩ := hnf
  have hjs : jsOr a.passphrase a.passphrase_plain = some plain := by
    simp [jsOr, hpe, hplain]
  have hv : validAttrs a = true := by
    simp only [validAttrs, hpk, hpub, hjs, Bool.true_and]
    simpa [truthy] using hne
  have hm2 : (truthy a.passphrase_plain && env.canEncrypt) = true := by
    simp [hplain, truthy, hne, henc]
  have hmig : migrated a = ⟨a.private_key, a.public_key, some plain, some ""⟩ := by
    simp [migrated, hjs]
  have hst : storedTriple a =
      ⟨a.private_key.getD "", a.public_key.getD "", plain⟩ := by
    simp [storedTriple, hjs]
  have hck := check_valid_migrate hf hu hh ha hv hm2
  rw [hmig, hst] at hck
  have hgen := generateKeyPair_of_check_some none hck
  refine ⟨hgen, ?_, ?_⟩
  · have hsig := sign_of_generate m hsg hgen
      (by simpa using truthy_getD_ne hpk) (by simpa using hne)
    simpa using hsig
  · have hpub2 : (KeyTriple.mk (a.private_key.getD "") (a.public_key.getD "")
        plain).publicKey ≠ "" := by simpa using truthy_getD_ne hpub
    exact getPublicKey_of_generate hgen hpub2

/-- Witness for C10 at a concrete store with a plain-text passphrase. -/
theorem passphrase_migration_on_read_witness :
    generateKeyPair envOkEnc none storePlain =
        (Except.ok ⟨"PK", "PUB", "PLAINPASS"⟩,
          Store.update storePlain 0
            ⟨some "PK", some "PUB", some "PLAINPASS", some ""⟩,
          [Effect.soFind,
           Effect.soUpdate 0
             ⟨some "PK", some "PUB", some "PLAINPASS", some ""⟩]) := by
  have h := passphrase_migration_on_read envOkEnc storePlain ⟨0, some attrsPlain⟩
      attrsPlain "PLAINPASS" (Message.buffer [7]) ⟨rfl, rfl, rfl, rfl, rfl, rfl⟩
      rfl rfl rfl (by decide) (by decide) rfl (by decide) (by decide)
  exact h.1

/-- The concrete encryption-enabled environment is well behaved. -/
lemma envOkEnc_wf : (envOkEnc).wf :=
  ⟨⟨rfl, rfl, rfl, rfl, rfl, rfl⟩,
    by decide, fun _ => ⟨(by decide : ("PRIV" : String) ≠ ""),
      (by decide : ("PUB" : String) ≠ "")⟩⟩

/-- C4: for every message, `sign` returns the message bytes themselves when
the message is a buffer and the UTF-8 bytes of its JSON serialization
otherwise, together with the base64 SHA256 signature of those bytes under the
current key pair's private key and passphrase, generating a key pair first
when none exists (the key pair it signs with is exactly the one
`generateKeyPair` yields). -/
theorem sign_spec {ε : Type} (env : Env ε) (s : Store) (m : Message)
    (hwf : env.wf) :
    ∃ kp s1 tr,
      generateKeyPair env none s = (Except.ok kp, s1, tr) ∧
      sign env m s =
        (Except.ok (msgBytes m,
            env.signFn "SHA256" kp.privateKey kp.passphrase (msgBytes m)
              "base64"),
          s1,
          tr ++ [Effect.cryptoSign "SHA256" kp.privateKey kp.passphrase
                   (msgBytes m) "base64"]) ∧
      (∀ b, m = Message.buffer b → msgBytes m = b) ∧
      (∀ j, m = Message.record j → msgBytes m = utf8Bytes j) := by
  obtain ⟨hnf, hcw⟩ := hwf
  obtain ⟨kp, s1, tr, hgen⟩ := generate_ok_total s hnf none
  obtain ⟨h1, h2, h3⟩ := generate_ok_nonempty hcw hgen
  exact ⟨kp, s1, tr, hgen, sign_of_generate m hnf.2.1 hgen h1 h3,
    fun b hb => by subst hb; rfl, fun j hj => by subst hj; rfl⟩

/-- Witness for C4 at a concrete store and buffer message. -/
theorem sign_spec_witness :
    ∃ kp s1 tr,
      generateKeyPair envOkEnc none storeOne = (Except.ok kp, s1, tr) ∧
      sign envOkEnc (Message.buffer [1, 2]) storeOne =
        (Except.ok (msgBytes (Message.buffer [1, 2]),
            envOkEnc.signFn "SHA256" kp.privateKey kp.passphrase
              (msgBytes (Message.buffer [1, 2])) "base64"),
          s1,
          tr ++ [Effect.cryptoSign "SHA256" kp.privateKey kp.passphrase
                   (msgBytes (Message.buffer [1, 2])) "base64"]) ∧
      (∀ b, Message.buffer [1, 2] = Message.buffer b →
        msgBytes (Message.buffer [1, 2]) = b) ∧
      (∀ j, Message.buffer [1, 2] = Message.record j →
        msgBytes (Message.buffer [1, 2]) = utf8Bytes j) :=
  sign_spec envOkEnc storeOne (Message.buffer [1, 2]) envOkEnc_wf

/-- C5: `getPublicKey` returns the public key of the current stored key pair
(creating one when the store had none), and a second call with no intervening
rotation returns the same string. -/
theorem getPublicKey_stable {ε : Type} (env : Env ε) (s : Store)
    (hwf : env.wf) :
    ∃ k s1 t1 s2 t2,
      getPublicKey env s = (Except.ok k, s1, t1) ∧
      getPublicKey env s1 = (Except.ok k, s2, t2) ∧
      (∃ so a, s1.objs.head? = some so ∧ so.attributes = some a ∧
        a.public_key = some k) ∧
      (s.objs.head? = none → ∃ x, Effect.soCreate x ∈ t1) := by
  obtain ⟨⟨hg, hsg, hf, hc, hu, hd⟩, hcw⟩ := hwf
  cases hval : hasValidKeyPair s with
  | false =>
    have hp : jsOrStr (none : Option String) env.randPassphrase ≠ "" :=
      jsOrStr_ne_empty hcw.1
    have hgen := generateKeyPair_fresh none hg hc
      (check_of_not_valid hf hval)
    have hk2 : (freshTriple env (jsOrStr none env.randPassphrase)).publicKey ≠ "" :=
      (hcw.2 _).2
    have h1 := getPublicKey_of_generate hgen hk2
    have hh1 : ((s.create
          (freshAttrs env (jsOrStr none env.randPassphrase))).2).objs.head? =
        some ⟨s.nextId,
          some (freshAttrs env (jsOrStr none env.randPassphrase))⟩ := by
      simp [Store.create]
    have hck2 := check_valid_no_migrate hf hh1 rfl
      (validAttrs_freshAttrs hcw hp) freshAttrs_no_migrate
    rw [storedTriple_freshAttrs hp] at hck2
    have h2 := getPublicKey_of_generate
      (generateKeyPair_of_check_some none hck2) hk2
    refine ⟨_, _, _, _, _, h1, h2, ⟨_, _, hh1, rfl, ?_⟩,
      fun _ => ⟨freshAttrs env (jsOrStr none env.randPassphrase), by simp⟩⟩
    simp [freshAttrs_public_key, freshTriple]
  | true =>
    obtain ⟨so, a, hh, ha, hv⟩ := hasValid_dest hval
    have hpub : truthy a.public_key = true := by
      simp only [validAttrs, Bool.and_eq_true] at hv
      exact hv.1.2
    have hkne : (storedTriple a).publicKey ≠ "" := (storedTriple_nonempty hv).2.1
    cases hm : (truthy a.passphrase_plain && env.canEncrypt) with
    | false =>
      have hck := check_valid_no_migrate hf hh ha hv hm
      have h1 := getPublicKey_of_generate
        (generateKeyPair_of_check_some none hck) hkne
      exact ⟨_, _, _, _, _, h1, h1,
        ⟨so, a, hh, ha, by simpa [storedTriple] using truthy_eq_some hpub⟩,
        fun hn => by simp [hn] at hh⟩
    | true =>
      have h3 : truthy (jsOr a.passphrase a.passphrase_plain) = true := by
        simp only [validAttrs, Bool.and_eq_true] at hv
        exact hv.2
      have hck := check_valid_migrate hf hu hh ha hv hm
      have h1 := getPublicKey_of_generate
        (generateKeyPair_of_check_some none hck) hkne
      have hh2 := head_update (migrated a) hh
      have hck2 := check_valid_no_migrate hf hh2 rfl (validAttrs_migrated hv)
        migrated_no_migrate
      rw [storedTriple_migrated h3] at hck2
      have h2 := getPublicKey_of_generate
        (generateKeyPair_of_check_some none hck2) hkne
      exact ⟨_, _, _, _, _, h1, h2,
        ⟨_, migrated a, hh2, rfl,
          by simpa [storedTriple, migrated] using truthy_eq_some hpub⟩,
        fun hn => by simp [hn] at hh⟩

/-- Witness for C5 at a concrete empty store. -/
theorem getPublicKey_stable_witness :
    ∃ k s1 t1 s2 t2,
      getPublicKey envOkEnc storeEmpty = (Except.ok k, s1, t1) ∧
      getPublicKey envOkEnc s1 = (Except.ok k, s2, t2) ∧
      (∃ so a, s1.objs.head? = some so ∧ so.attributes = some a ∧
        a.public_key = some k) ∧
      (storeEmpty.objs.head? = none → ∃ x, Effect.soCreate x ∈ t1) :=
  getPublicKey_stable envOkEnc storeEmpty envOkEnc_wf

/-- C3: `rotateKeyPair` returns true exactly when a current key pair saved
object existed before the call; in that case it first deletes that object and
then generates and persists a fresh key pair, and otherwise it returns false
and leaves the store unchanged, creating nothing.  The store hypothesis
(at most one stored object) is the invariant the service maintains: objects
are only ever created when none exists (`reachable_inv`, `reachable_length`). -/
theorem rotateKeyPair_spec {ε : Type} (env : Env ε) (s : Store)
    (hnf : env.noFail) (hlen : s.objs.length ≤ 1) :
    ((rotateKeyPair env s).1 = Except.ok true ↔ s.objs ≠ []) ∧
      ((rotateKeyPair env s).1 = Except.ok false ↔ s.objs = []) ∧
      (s.objs = [] → rotateKeyPair env s = (Except.ok false, s, [Effect.soFind])) ∧
      (∀ so, s.objs = [so] →
        rotateKeyPair env s =
          (Except.ok true,
            Store.mk [SavedObject.mk s.nextId
              (some (freshAttrs env env.randPassphrase))] (s.nextId + 1),
            [Effect.soFind, Effect.soDelete so.id, Effect.soFind,
             Effect.cryptoGen (ecKeyGenOptions env.randPassphrase),
             Effect.soCreate (freshAttrs env env.randPassphrase)])) := by
  obtain ⟨hg, hsg, hf, hc, hu, hd⟩ := hnf
  cases hobjs : s.objs with
  | nil =>
    have hrot := rotate_of_remove_false
      (removeKeyPair_none hf (show s.objs.head? = none by simp [hobjs]))
    refine ⟨?_, ?_, ?_, ?_⟩
    · rw [hrot]; simp [hobjs]
    · rw [hrot]; simp [hobjs]
    · intro _
      exact hrot
    · intro so hso
      cases hso
  | cons so rest =>
    obtain rfl : rest = [] := by
      rw [hobjs] at hlen
      simpa using hlen
    have hrm := removeKeyPair_some hf hd
      (show s.objs.head? = some so by simp [hobjs])
    have hdel : s.delete so.id = Store.mk [] s.nextId := by
      simp [Store.delete, hobjs]
    rw [hdel] at hrm
    have hgen := generateKeyPair_fresh none hg hc
      (check_of_not_valid hf
        (show hasValidKeyPair (Store.mk [] s.nextId) = false by
          simp [hasValidKeyPair]))
    have hrot2 : rotateKeyPair env s =
        (Except.ok true,
          Store.mk [SavedObject.mk s.nextId
            (some (freshAttrs env env.randPassphrase))] (s.nextId + 1),
          [Effect.soFind, Effect.soDelete so.id, Effect.soFind,
           Effect.cryptoGen (ecKeyGenOptions env.randPassphrase),
           Effect.soCreate (freshAttrs env env.randPassphrase)]) := by
      simpa [Store.create, jsOrStr] using rotate_of_remove_true hrm hgen
    refine ⟨?_, ?_, ?_, ?_⟩
    · rw [hrot2]; simp [hobjs]
    · rw [hrot2]; simp [hobjs]
    · intro h
      cases h
    · intro so2 hso2
      obtain rfl : so = so2 := by simpa using hso2
      exact hrot2

/-- Witness for C3 at a concrete one-object store. -/
theorem rotateKeyPair_spec_witness :
    (rotateKeyPair envOkEnc storeOne).1 = Except.ok true ∧
      rotateKeyPair envOkEnc storeOne =
        (Except.ok true,
          Store.mk [SavedObject.mk 1
            (some ⟨some "PRIV", some "PUB", some "RANDPASS", none⟩)] 2,
          [Effect.soFind, Effect.soDelete 0, Effect.soFind,
           Effect.cryptoGen (ecKeyGenOptions "RANDPASS"),
           Effect.soCreate ⟨some "PRIV", some "PUB", some "RANDPASS", none⟩]) := by
  have h := rotateKeyPair_spec envOkEnc storeOne ⟨rfl, rfl, rfl, rfl, rfl, rfl⟩
    (by decide)
  exact ⟨h.1.mpr (by decide), h.2.2.2 soStored rfl⟩

/-- C7: the signing service adds no failure recovery of its own.  When a
dependency call — the store's find, create, update or delete, or one of the
cryptographic primitives (key generation, `signer.sign`) — throws during
`generateKeyPair`, `sign`, `getPublicKey` or `rotateKeyPair`, the method
surfaces exactly that error, and the recorded run stops at the failing call:
no further or compensating store operation is performed (in particular a
rotation whose re-creation fails does not restore the deleted key pair).
Faults inside the shared `generateKeyPair` step surface unchanged through
`sign` and `getPublicKey`, both generically and per fault. -/
theorem signing_error_propagation {ε : Type} (env : Env ε) (s : Store) (e : ε)
    (p : Option String) (m : Message) :
    (env.soFindErr = some e →
      generateKeyPair env p s = (Except.error (SvcErr.dep e), s, []) ∧
      sign env m s = (Except.error (SvcErr.dep e), s, []) ∧
      getPublicKey env s = (Except.error (SvcErr.dep e), s, []) ∧
      rotateKeyPair env s = (Except.error (SvcErr.dep e), s, [])) ∧
    (env.soFindErr = none → env.genErr = some e → hasValidKeyPair s = false →
      generateKeyPair env p s =
        (Except.error (SvcErr.dep e), s, [Effect.soFind])) ∧
    (env.soFindErr = none → env.genErr = none → env.soCreateErr = some e →
      hasValidKeyPair s = false →
      generateKeyPair env p s =
        (Except.error (SvcErr.dep e), s,
          [Effect.soFind,
           Effect.cryptoGen (ecKeyGenOptions (jsOrStr p env.randPassphrase))])) ∧
    (env.soFindErr = none → env.soUpdateErr = some e →
      ∀ so a, s.objs.head? = some so → so.attributes = some a →
        validAttrs a = true →
        (truthy a.passphrase_plain && env.canEncrypt) = true →
        generateKeyPair env p s =
          (Except.error (SvcErr.dep e), s, [Effect.soFind])) ∧
    (env.soFindErr = none → env.soDeleteErr = some e →
      ∀ so, s.objs.head? = some so →
        rotateKeyPair env s =
          (Except.error (SvcErr.dep e), s, [Effect.soFind])) ∧
    (env.soFindErr = none → env.soDeleteErr = none → env.genErr = none →
      env.soCreateErr = some e →
      ∀ so, s.objs = [so] →
        rotateKeyPair env s =
          (Except.error (SvcErr.dep e), Store.mk [] s.nextId,
            [Effect.soFind, Effect.soDelete so.id, Effect.soFind,
             Effect.cryptoGen (ecKeyGenOptions env.randPassphrase)])) ∧
    (env.soFindErr = none → env.soDeleteErr = none → env.genErr = some e →
      ∀ so, s.objs = [so] →
        rotateKeyPair env s =
          (Except.error (SvcErr.dep e), Store.mk [] s.nextId,
            [Effect.soFind, Effect.soDelete so.id, Effect.soFind])) ∧
    (∀ err s1 tr, generateKeyPair env none s = (Except.error err, s1, tr) →
      sign env m s = (Except.error err, s1, tr) ∧
      getPublicKey env s = (Except.error err, s1, tr)) ∧
    (env.soFindErr = none → env.genErr = some e → hasValidKeyPair s = false →
      sign env m s = (Except.error (SvcErr.dep e), s, [Effect.soFind]) ∧
      getPublicKey env s =
        (Except.error (SvcErr.dep e), s, [Effect.soFind])) ∧
    (env.soFindErr = none → env.genErr = none → env.soCreateErr = some e →
      hasValidKeyPair s = false →
      sign env m s =
        (Except.error (SvcErr.dep e), s,
          [Effect.soFind,
           Effect.cryptoGen (ecKeyGenOptions env.randPassphrase)]) ∧
      getPublicKey env s =
        (Except.error (SvcErr.dep e), s,
          [Effect.soFind,
           Effect.cryptoGen (ecKeyGenOptions env.randPassphrase)])) ∧
    (env.soFindErr = none → env.soUpdateErr = some e →
      ∀ so a, s.objs.head? = some so → so.attributes = some a →
        validAttrs a = true →
        (truthy a.passphrase_plain && env.canEncrypt) = true →
        sign env m s = (Except.error (SvcErr.dep e), s, [Effect.soFind]) ∧
        getPublicKey env s =
          (Except.error (SvcErr.dep e), s, [Effect.soFind])) ∧
    (env.signErr = some e → env.cryptoWf →
      ∀ kp s1 tr, generateKeyPair env none s = (Except.ok kp, s1, tr) →
        sign env m s = (Except.error (SvcErr.dep e), s1, tr)) := by
  refine ⟨?_, ?_, ?_, ?_, ?_, ?_, ?_, ?_, ?_, ?_, ?_, ?_⟩
  · intro hf2
    have hck := check_find_err s hf2
    exact ⟨generateKeyPair_of_check_err p hck,
      sign_of_generate_err (generateKeyPair_of_check_err none hck),
      getPublicKey_of_generate_err (generateKeyPair_of_check_err none hck),
      rotate_of_remove_err (removeKeyPair_find_err hf2)⟩
  · intro hf2 hg2 hval
    exact generateKeyPair_genErr p hg2 (check_of_not_valid hf2 hval)
  · intro hf2 hg2 hc2 hval
    simpa using generateKeyPair_createErr p hg2 hc2 (check_of_not_valid hf2 hval)
  · intro hf2 hu2 so a hh ha hv hm
    exact generateKeyPair_of_check_err p
      (check_valid_migrate_err hf2 hu2 hh ha hv hm)
  · intro hf2 hd2 so hh
    exact rotate_of_remove_err (removeKeyPair_delete_err hf2 hd2 hh)
  · intro hf2 hd2 hg2 hc2 so hso
    have hrm := removeKeyPair_some hf2 hd2
      (show s.objs.head? = some so by simp [hso])
    have hdel : s.delete so.id = Store.mk [] s.nextId := by
      simp [Store.delete, hso]
    rw [hdel] at hrm
    have hgen := generateKeyPair_createErr none hg2 hc2
      (check_of_not_valid hf2
        (show hasValidKeyPair (Store.mk [] s.nextId) = false by
          simp [hasValidKeyPair]))
    simpa [jsOrStr] using rotate_of_remove_true_err hrm hgen
  · intro hf2 hd2 hg2 so hso
    have hrm := removeKeyPair_some hf2 hd2
      (show s.objs.head? = some so by simp [hso])
    have hdel : s.delete so.id = Store.mk [] s.nextId := by
      simp [Store.delete, hso]
    rw [hdel] at hrm
    have hgen := generateKeyPair_genErr none hg2
      (check_of_not_valid hf2
        (show hasValidKeyPair (Store.mk [] s.nextId) = false by
          simp [hasValidKeyPair]))
    simpa using rotate_of_remove_true_err hrm hgen
  · intro err s1 tr hgen
    exact ⟨sign_of_generate_err hgen, getPublicKey_of_generate_err hgen⟩
  · intro hf2 hg2 hval
    have hgen := generateKeyPair_genErr none hg2 (check_of_not_valid hf2 hval)
    exact ⟨sign_of_generate_err hgen, getPublicKey_of_generate_err hgen⟩
  · intro hf2 hg2 hc2 hval
    have hgen := generateKeyPair_createErr none hg2 hc2
      (check_of_not_valid hf2 hval)
    constructor
    · simpa [jsOrStr] using sign_of_generate_err hgen
    · simpa [jsOrStr] using getPublicKey_of_generate_err hgen
  · intro hf2 hu2 so a hh ha hv hm
    have hgen := generateKeyPair_of_check_err none
      (check_valid_migrate_err hf2 hu2 hh ha hv hm)
    exact ⟨sign_of_generate_err hgen, getPublicKey_of_generate_err hgen⟩
  · intro hs2 hcw kp s1 tr hgen
    obtain ⟨h1, h2, h3⟩ := generate_ok_nonempty hcw hgen
    exact sign_signErr hs2 hgen h1 h3

/-- Witness for C7: a failing find dependency propagates through both
`generateKeyPair` and `rotateKeyPair`, and a failing `signer.sign` primitive
propagates through `sign`, at a concrete store. -/
theorem signing_error_propagation_witness :
    generateKeyPair envFindFail none storeOne =
        (Except.error (SvcErr.dep ()), storeOne, ([] : List Effect)) ∧
      rotateKeyPair envFindFail storeOne =
        (Except.error (SvcErr.dep ()), storeOne, ([] : List Effect)) ∧
      sign envSignFail (Message.buffer [1]) storeOne =
        (Except.error (SvcErr.dep ()), storeOne, [Effect.soFind]) := by
  have h := (signing_error_propagation envFindFail storeOne () none
    (Message.buffer [1])).1 rfl
  obtain ⟨-, -, -, -, -, -, -, -, -, -, -, hL⟩ :=
    signing_error_propagation envSignFail storeOne () none (Message.buffer [1])
  exact ⟨h.1, h.2.2.2,
    hL rfl
      ⟨by decide, fun _ => ⟨(by decide : ("PRIV" : String) ≠ ""),
        (by decide : ("PUB" : String) ≠ "")⟩⟩
      ⟨"PK", "PUB", "PASS"⟩ storeOne [Effect.soFind] rfl⟩

/-! ## Claim about the trained models routes -/

open TrainedModels

/-- C6 counterexample: the `GET /api/ml/trained_models/{modelId}` handler is
not a thin proxy.  With `with_pipelines` requested, its stats client call
throws, yet the handler answers 200 with the model list instead of
`customError(wrapError(e))`, and it performs two client calls. -/
theorem trainedModelsRoutes_not_all_thin_proxy :
    clientStatsFail.getTrainedModelsStats (some "m1") (some 10000) =
        Except.error "stats boom" ∧
      getModelsRoute clientStatsFail (some "m1") true "q" =
        (RouteResponse.ok [⟨"m1", [], none⟩],
          [Call.getTrainedModels 1000 "q" (some "m1"),
           Call.getTrainedModelsStats (some "m1") (some 10000)]) :=
  ⟨rfl, rfl⟩

/-- C6 (amended): every route handler except `GET trained_models/{modelId}`
is a thin proxy — it forwards the validated parameters, query and body to its
single client call and answers that call's result with 200, or
`customError(wrapError(e))` when the call throws, with no retry (exactly one
call) and no other effect.  The `GET {modelId}` handler proxies only its
primary `getTrainedModels` call that way; when `with_pipelines` is set it
makes up to two further calls to enrich the result, and an error of those
enrichment calls is logged and swallowed, the handler still answering 200
with the unenriched model list. -/
theorem trainedModelsRoutes_proxy_amended {ε : Type} (client : MlClient ε)
    (modelId body queryStr pipeline docs : String) (modelIdOpt : Option String)
    (withPipelines : Bool) (deferDD force : Option Bool)
    (inferenceConfig timeout queryParams : Option String) :
    (getStatsRoute client =
      (proxyResponse (client.getTrainedModelsStats none none),
        [Call.getTrainedModelsStats none none])) ∧
    (getModelStatsRoute client modelId =
      (proxyResponse
          (client.getTrainedModelsStats (optTruthy (some modelId)) none),
        [Call.getTrainedModelsStats (optTruthy (some modelId)) none])) ∧
    (getPipelinesRoute client modelId =
      (proxyResponse (Except.map
          (fun r => r.map (fun kv => (⟨kv.1, kv.2⟩ : ModelPipelines)))
          (client.getModelsPipelines (modelId.splitOn ","))),
        [Call.getModelsPipelines (modelId.splitOn ",")])) ∧
    (putModelRoute client modelId body deferDD =
      (proxyResponse (client.putTrainedModel modelId body (deferDD.getD false)),
        [Call.putTrainedModel modelId body (deferDD.getD false)])) ∧
    (deleteModelRoute client modelId =
      (proxyResponse (client.deleteTrainedModel modelId),
        [Call.deleteTrainedModel modelId])) ∧
    (startDeploymentRoute client modelId queryParams =
      (proxyResponse (client.startTrainedModelDeployment modelId queryParams),
        [Call.startDeployment modelId queryParams])) ∧
    (updateDeploymentRoute client modelId body =
      (proxyResponse (client.updateTrainedModelDeployment modelId body),
        [Call.updateDeployment modelId body])) ∧
    (stopDeploymentRoute client modelId force =
      (proxyResponse
          (client.stopTrainedModelDeployment modelId (force.getD false)),
        [Call.stopDeployment modelId (force.getD false)])) ∧
    (pipelineSimulateRoute client pipeline docs =
      (proxyResponse (client.ingestSimulate pipeline docs),
        [Call.ingestSimulate pipeline docs])) ∧
    (inferRoute client modelId docs inferenceConfig timeout =
      (proxyResponse (client.inferTrainedModel modelId docs inferenceConfig
          (optTruthy timeout)),
        [Call.inferTrainedModel modelId docs inferenceConfig
          (optTruthy timeout)])) ∧
    (∀ e, client.getTrainedModels 1000 queryStr (optTruthy modelIdOpt) =
        Except.error e →
      getModelsRoute client modelIdOpt withPipelines queryStr =
        (RouteResponse.customError (wrapError e),
          [Call.getTrainedModels 1000 queryStr (optTruthy modelIdOpt)])) ∧
    (∀ r, client.getTrainedModels 1000 queryStr (optTruthy modelIdOpt) =
        Except.ok r → withPipelines = false →
      getModelsRoute client modelIdOpt withPipelines queryStr =
        (RouteResponse.ok r,
          [Call.getTrainedModels 1000 queryStr (optTruthy modelIdOpt)])) ∧
    (∀ r e, client.getTrainedModels 1000 queryStr (optTruthy modelIdOpt) =
        Except.ok r → withPipelines = true →
      client.getTrainedModelsStats (optTruthy modelIdOpt) (some 10000) =
        Except.error e →
      getModelsRoute client modelIdOpt withPipelines queryStr =
        (RouteResponse.ok r,
          [Call.getTrainedModels 1000 queryStr (optTruthy modelIdOpt),
           Call.getTrainedModelsStats (optTruthy modelIdOpt) (some 10000)])) ∧
    (∀ r st e, client.getTrainedModels 1000 queryStr (optTruthy modelIdOpt) =
        Except.ok r → withPipelines = true →
      client.getTrainedModelsStats (optTruthy modelIdOpt) (some 10000) =
        Except.ok st →
      client.getModelsPipelines
          (modelIdsAndAliases r (buildDeploymentsMap st.trained_model_stats)) =
        Except.error e →
      getModelsRoute client modelIdOpt withPipelines queryStr =
        (RouteResponse.ok r,
          [Call.getTrainedModels 1000 queryStr (optTruthy modelIdOpt),
           Call.getTrainedModelsStats (optTruthy modelIdOpt) (some 10000),
           Call.getModelsPipelines
             (modelIdsAndAliases r
               (buildDeploymentsMap st.trained_model_stats))])) ∧
    (∀ r st pr, client.getTrainedModels 1000 queryStr (optTruthy modelIdOpt) =
        Except.ok r → withPipelines = true →
      client.getTrainedModelsStats (optTruthy modelIdOpt) (some 10000) =
        Except.ok st →
      client.getModelsPipelines
          (modelIdsAndAliases r (buildDeploymentsMap st.trained_model_stats)) =
        Except.ok pr →
      getModelsRoute client modelIdOpt withPipelines queryStr =
        (RouteResponse.ok (r.map
            (enrichModel pr (buildDeploymentsMap st.trained_model_stats))),
          [Call.getTrainedModels 1000 queryStr (optTruthy modelIdOpt),
           Call.getTrainedModelsStats (optTruthy modelIdOpt) (some 10000),
           Call.getModelsPipelines
             (modelIdsAndAliases r
               (buildDeploymentsMap st.trained_model_stats))])) := by
  refine ⟨?_, ?_, ?_, ?_, ?_, ?_, ?_, ?_, ?_, ?_, ?_, ?_, ?_, ?_, ?_⟩
  · cases h : client.getTrainedModelsStats none none <;>
      simp [getStatsRoute, proxyResponse, h]
  · cases h : client.getTrainedModelsStats (optTruthy (some modelId)) none <;>
      simp [getModelStatsRoute, proxyResponse, h]
  · cases h : client.getModelsPipelines (modelId.splitOn ",") <;>
      simp [getPipelinesRoute, proxyResponse, h, Except.map]
  · cases h : client.putTrainedModel modelId body (deferDD.getD false) <;>
      simp [putModelRoute, proxyResponse, h]
  · cases h : client.deleteTrainedModel modelId <;>
      simp [deleteModelRoute, proxyResponse, h]
  · cases h : client.startTrainedModelDeployment modelId queryParams <;>
      simp [startDeploymentRoute, proxyResponse, h]
  · cases h : client.updateTrainedModelDeployment modelId body <;>
      simp [updateDeploymentRoute, proxyResponse, h]
  · cases h : client.stopTrainedModelDeployment modelId (force.getD false) <;>
      simp [stopDeploymentRoute, proxyResponse, h]
  · cases h : client.ingestSimulate pipeline docs <;>
      simp [pipelineSimulateRoute, proxyResponse, h]
  · cases h : client.inferTrainedModel modelId docs inferenceConfig
        (optTruthy timeout) <;>
      simp [inferRoute, proxyResponse, h]
  · intro e he
    simp [getModelsRoute, he]
  · intro r hr hwp
    simp [getModelsRoute, hr, hwp]
  · intro r e hr hwp hs
    simp [getModelsRoute, hr, hwp, hs]
  · intro r st e hr hwp hs hp
    simp [getModelsRoute, hr, hwp, hs, hp]
  · intro r st pr hr hwp hs hp
    simp [getModelsRoute, hr, hwp, hs, hp]

/-- Witness for the amended C6: a thin route propagating the thrown error,
and the `GET {modelId}` handler swallowing its enrichment error, at the
concrete failing client. -/
theorem trainedModelsRoutes_proxy_amended_witness :
    getStatsRoute clientStatsFail =
        (RouteResponse.customError (wrapError "stats boom"),
          [Call.getTrainedModelsStats none none]) ∧
      getModelsRoute clientStatsFail (some "m1") true "q" =
        (RouteResponse.ok [⟨"m1", [], none⟩],
          [Call.getTrainedModels 1000 "q" (some "m1"),
           Call.getTrainedModelsStats (some "m1") (some 10000)]) := by
  have h := trainedModelsRoutes_proxy_amended clientStatsFail "m" "b" "q" "p"
    "d" (some "m1") true none none none none none
  exact ⟨h.1,
    h.2.2.2.2.2.2.2.2.2.2.2.2.1 [⟨"m1", [], none⟩] "stats boom" rfl rfl rfl⟩
